import Mathlib

/-!
# junixsocket-native: `socketpair.c`

A shallow embedding of `simulateSocketPair` and
`Java_org_newsclub_net_unix_NativeUnixSocket_socketPair`.

The C code is straight-line code over platform calls.  It is embedded as
explicit state passing over a `World`:

* the platform is a stream of `Reply` values, one consumed by every platform
  call; no loop occurs in the code, so every behaviour of a platform along one
  run is such a stream, and a theorem quantified over worlds holds for every
  behaviour of the platform;
* a handle is a natural number, `-1` is the failure value of a call that returns
  a handle, `0` and `-1` are the values of a call that returns a status;
* the two error variables of the C runtime (`errno` and the Winsock last
  error) are part of the state, every reply may overwrite them;
* every platform call, every `_initFD` and every `_throw...Exception` is
  appended to a trace, in program order.

Build-time switches (`_WIN32`, `junixsocket_have_vsock`, ...) and the constants
of the system headers are fields of `Config`.
-/

namespace JUnixSocket

/-! ## Data model -/

/-- The two error variables a socket call can leave its error code in. -/
structure ErrVars where
  errno : Int
  wsaLastError : Int
deriving DecidableEq, Repr

/-- The address buffers that occur in `socketpair.c`: `struct sockaddr_in`,
`struct sockaddr_vm` (its `svm_len` member exists only with
`junixsocket_have_sun_len`), and whatever the platform writes back. -/
inductive SockAddr
  | sockaddr_in (sin_family : Int) (s_addr : Nat) (sin_port : Nat)
  | sockaddr_vm (svm_len : Option Nat) (svm_family : Int) (svm_port : Nat) (svm_cid : Nat)
  | written (id : Nat)
deriving DecidableEq, Repr

/-- The two `FileDescriptor` objects handed in by the caller. -/
inductive Slot
  | slot1
  | slot2
deriving DecidableEq, Repr

/-- What the platform answers to one call.  `ok` carries the handle(s) the call
returns (`h1`; `h1`, `h2` for `socketpair`), the address it writes into the
caller's buffer, if any, and the new content of the error variables, if it
touches them.  `fail` only carries the latter. -/
inductive Reply
  | ok (h1 h2 : Nat) (addr : Option SockAddr) (err : Option ErrVars)
  | fail (err : Option ErrVars)
deriving DecidableEq, Repr

/-- The exception classes of exceptions.h that `socketpair.c` names. -/
inductive ExceptionKind
  | kExceptionSocketException
deriving DecidableEq, Repr

/-- Everything observable about one run, in program order. -/
inductive Event
  | socket (domain type protocol ret : Int)
  | fixupSocketAddress (handle : Int) (addr : SockAddr)
  | bind (handle : Int) (addr : SockAddr) (len : Nat) (ret : Int)
  | listen (handle backlog ret : Int)
  | getsockname (handle : Int) (len : Nat) (ret : Int)
  | ioctlsocket (handle : Int) (mode : Nat) (ret : Int)
  | connect (handle : Int) (addr : SockAddr) (len : Nat) (ret : Int)
  | accept (handle : Int) (len : Nat) (ret : Int)
  | closesocket (handle : Int)
  | socketpair (domain type protocol ret : Int) (sv : Option (Int × Int))
  | fcntl (handle : Int)
  | initFD (slot : Slot) (handle : Int)
  | throwErrnum (code : Int)
  | throwException (kind : ExceptionKind) (msg : String)
  | throwUnsupportedType
deriving DecidableEq, Repr

/-- Build-time switches, header constants and the external collaborators that
`socketpair.c` uses but does not define. -/
structure Config where
  /-- `defined(_WIN32)`: the platform has no native pair primitive. -/
  win32 : Bool
  /-- `junixsocket_have_vsock`. -/
  have_vsock : Bool
  /-- `defined(junixsocket_have_socket_cloexec)`. -/
  have_socket_cloexec : Bool
  /-- `defined(FD_CLOEXEC)`. -/
  have_FD_CLOEXEC : Bool
  /-- `defined(junixsocket_have_sun_len)`. -/
  have_sun_len : Bool
  /-- `defined(VMADDR_CID_LOCAL)`. -/
  have_VMADDR_CID_LOCAL : Bool
  /-- Result of `supportsUNIX()` (init.h), fixed at initialisation. -/
  supportsUNIX : Bool
  /-- Byte order of the host, for `htonl`. -/
  littleEndian : Bool
  AF_INET : Int
  AF_VSOCK : Int
  SOCK_CLOEXEC : Int
  EPROTONOSUPPORT : Int
  EOPNOTSUPP : Int
  EWOULDBLOCK : Int
  VMADDR_PORT_ANY : Nat
  VMADDR_CID_LOCAL : Nat
  VMADDR_CID_RESERVED : Nat
  sizeof_sockaddr_in : Nat
  sizeof_sockaddr_vm : Nat
  /-- `domainToNative` (address.h), a pure translation with sentinel `-1`. -/
  domainToNative : Int → Int
  /-- The translation table behind `sockTypeToNative` (socket.h). -/
  sockTypeTable : Int → Int
  /-- The macro `socket_errno` (config.h): an expression over the error
  variables, which may assign to them. -/
  socket_errno : ErrVars → Int × ErrVars

/-- The state threaded through the code. -/
structure World where
  /-- Answer of the platform to its `n`-th call. -/
  platform : Nat → Reply
  /-- Number of platform calls made so far. -/
  calls : Nat
  err : ErrVars
  trace : List Event

/-- New content of the error variables after a reply. -/
def Reply.newErr : Reply → Option ErrVars
  | .ok _ _ _ err => err
  | .fail err => err

/-- Return value of a call that returns a handle: the handle, or `-1`. -/
def Reply.handle : Reply → Int
  | .ok h _ _ _ => (h : Int)
  | .fail _ => -1

/-- Return value of a call that returns a status: `0`, or `-1`. -/
def Reply.status : Reply → Int
  | .ok _ _ _ _ => 0
  | .fail _ => -1

/-- The answer the next platform call will get. -/
def World.reply (w : World) : Reply := w.platform w.calls

/-- Consume the pending answer: the error variables take the value it carries. -/
def World.advance (w : World) : World :=
  { w with calls := w.calls + 1, err := (w.reply.newErr).getD w.err }

/-- Overwrite the error variables. -/
def World.setErr (w : World) (ev : ErrVars) : World :=
  { w with err := ev }

/-- Append an event to the trace. -/
def World.log (w : World) (e : Event) : World :=
  { w with trace := w.trace ++ [e] }

/-- The answer to the `k`-th platform call counted from now. -/
def World.answer (w : World) (k : Nat) : Reply := w.platform (w.calls + k)

/-- The error variables after the next `k` platform calls, when the code does
not touch them in between. -/
def World.errAt (w : World) : Nat → ErrVars
  | 0 => w.err
  | k + 1 => ((w.answer k).newErr).getD (w.errAt k)

/-- A world whose platform answers from a finite script, and fails without
touching the error variables once the script is used up. -/
def World.ofScript (script : List Reply) (err : ErrVars) : World :=
  { platform := fun n => script.getD n (Reply.fail none), calls := 0, err := err, trace := [] }

/-! ## Platform calls -/

/-- Winsock `NO_ERROR`. -/
@[simp] def NO_ERROR : Int := 0

/-- Call `socket(domain, type, protocol)`: the new handle, or `-1`. -/
@[simp] def socket (domain type protocol : Int) (w : World) : Int × World :=
  (w.reply.handle, w.advance.log (.socket domain type protocol w.reply.handle))

/-- The content of an address buffer after a call that got this reply. -/
def Reply.writeAddr (r : Reply) (buf : SockAddr) : SockAddr :=
  match r with
  | .ok _ _ (some a) _ => a
  | _ => buf

/-- Call `fixupSocketAddress(handle, addr)` (address.h), which may rewrite the
buffer `addr` in place: the result is the buffer afterwards. -/
@[simp] def fixupSocketAddress (handle : Int) (addr : SockAddr) (w : World) : SockAddr × World :=
  (w.reply.writeAddr addr, w.advance.log (.fixupSocketAddress handle addr))

/-- Call `bind(handle, addr, len)`: `0` or `-1`. -/
@[simp] def bind (handle : Int) (addr : SockAddr) (len : Nat) (w : World) : Int × World :=
  (w.reply.status, w.advance.log (.bind handle addr len w.reply.status))

/-- Call `listen(handle, backlog)`: `0` or `-1`. -/
@[simp] def listen (handle backlog : Int) (w : World) : Int × World :=
  (w.reply.status, w.advance.log (.listen handle backlog w.reply.status))

/-- Call `getsockname(handle, addr, &len)`: the return value and the buffer
`addr` afterwards. -/
@[simp] def getsockname (handle : Int) (addr : SockAddr) (len : Nat) (w : World) :
    (Int × SockAddr) × World :=
  ((w.reply.status, w.reply.writeAddr addr),
    w.advance.log (.getsockname handle len w.reply.status))

/-- Call `ioctlsocket(handle, FIONBIO, &mode)`: `NO_ERROR` (0) or `SOCKET_ERROR`
(-1). -/
@[simp] def ioctlsocket (handle : Int) (mode : Nat) (w : World) : Int × World :=
  (w.reply.status, w.advance.log (.ioctlsocket handle mode w.reply.status))

/-- Call `connect(handle, addr, len)`: `0` or `-1`. -/
@[simp] def connect (handle : Int) (addr : SockAddr) (len : Nat) (w : World) : Int × World :=
  (w.reply.status, w.advance.log (.connect handle addr len w.reply.status))

/-- Call `accept(handle, addr, &len)`: the new handle, or `-1`. -/
@[simp] def accept (handle : Int) (len : Nat) (w : World) : Int × World :=
  (w.reply.handle, w.advance.log (.accept handle len w.reply.handle))

/-- Call `closesocket(handle)`; its return value is not looked at. -/
@[simp] def closesocket (handle : Int) (w : World) : World :=
  w.advance.log (.closesocket handle)

/-- Call `socketpair(domain, type, protocol, socket_vector)`: the return value
(`0` or `-1`) and the content of `socket_vector` afterwards. -/
@[simp] def socketpair (domain type protocol : Int) (sv : Int × Int) (w : World) :
    (Int × (Int × Int)) × World :=
  match w.reply with
  | .ok h1 h2 _ _ =>
    ((0, ((h1 : Int), (h2 : Int))),
      w.advance.log (.socketpair domain type protocol 0 (some ((h1 : Int), (h2 : Int)))))
  | .fail _ => ((-1, sv), w.advance.log (.socketpair domain type protocol (-1) none))

/-- Call `fcntl(handle, F_SETFD, FD_CLOEXEC)`; its return value is not looked at. -/
@[simp] def fcntl (handle : Int) (w : World) : World :=
  w.advance.log (.fcntl handle)

/-! ## Sinks of the calling runtime -/

/-- Evaluate the macro `socket_errno`. -/
@[simp] def readSocketErrno (cfg : Config) (w : World) : Int × World :=
  ((cfg.socket_errno w.err).1, w.setErr (cfg.socket_errno w.err).2)

/-- The sink `_throwErrnumException(env, code, NULL)`. -/
@[simp] def throwErrnumException (code : Int) (w : World) : World :=
  w.log (.throwErrnum code)

/-- The statement `_throwErrnumException(env, socket_errno, NULL)`. -/
@[simp] def throwSocketErrno (cfg : Config) (w : World) : World :=
  throwErrnumException (readSocketErrno cfg w).1 (readSocketErrno cfg w).2

/-- The sink `_initFD(env, fd, handle)`. -/
@[simp] def initFD (slot : Slot) (handle : Int) (w : World) : World :=
  w.log (.initFD slot handle)

/-- Modelled from the spec: `sockTypeToNative` is declared in socket.h and its
body is not part of `socketpair.c`.  It translates the logical socket type; a
type without native mapping yields the sentinel `-1` and is surfaced as the
named condition UnsupportedType.  It makes no platform call. -/
@[simp] def sockTypeToNative (cfg : Config) (type : Int) (w : World) : Int × World :=
  if cfg.sockTypeTable type = -1 then (-1, w.log .throwUnsupportedType)
  else (cfg.sockTypeTable type, w)

/-- Reverse the four bytes of a 32-bit value. -/
def byteswap32 (x : Nat) : Nat :=
  (x % 256) * 16777216 + (x / 256 % 256) * 65536 + (x / 65536 % 256) * 256 + x / 16777216 % 256

/-- The function `htonl` of the platform. -/
def htonl (cfg : Config) (x : Nat) : Nat :=
  if cfg.littleEndian then byteswap32 x else x % 4294967296

/-- The bytes of a 32-bit value in the order they lie in memory. -/
def memoryBytes (cfg : Config) (x : Nat) : List Nat :=
  if cfg.littleEndian then [x % 256, x / 256 % 256, x / 65536 % 256, x / 16777216 % 256]
  else [x / 16777216 % 256, x / 65536 % 256, x / 256 % 256, x % 256]

/-! ## The code of `socketpair.c` -/

/-- The function `simulateSocketPair` (socketpair.c, lines 26 to 100).  The two
blocks under `#if defined(_WIN32)` are guarded by `cfg.win32`. -/
def simulateSocketPair (cfg : Config) (domain type : Int) (fd1 fd2 : Slot) (addrLen : Nat)
    (addr : SockAddr) (w : World) : World :=
  -- lines 27 to 31: int handleListen = socket(domain, type, 0);
  let sL := socket domain type 0 w
  let handleListen := sL.1
  if handleListen < 0 then throwSocketErrno cfg sL.2 else
  -- lines 35 to 40: fixupSocketAddress(handleListen, addr); ret = bind(...);
  let fx := fixupSocketAddress handleListen addr sL.2
  let addr := fx.1
  let bd := bind handleListen addr addrLen fx.2
  if bd.1 ≠ 0 then throwSocketErrno cfg bd.2 else
  -- lines 41 to 45: ret = listen(handleListen, 1);
  let ls := listen handleListen 1 bd.2
  if ls.1 ≠ 0 then throwSocketErrno cfg ls.2 else
  -- lines 47 to 52: len = addrLen; ret = getsockname(handleListen, addr, &len);
  let len := addrLen
  let gs := getsockname handleListen addr len ls.2
  let addr := gs.1.2
  if gs.1.1 ≠ 0 then throwSocketErrno cfg gs.2 else
  -- lines 54 to 59: int handleConnect = socket(domain, type, 0);
  -- on failure closesocket(handleListen) comes before socket_errno is read
  let sC := socket domain type 0 gs.2
  let handleConnect := sC.1
  if handleConnect < 0 then
    throwSocketErrno cfg (closesocket handleListen sC.2)
  else
  -- lines 61 to 70 (_WIN32): mode = 1; ioctlsocket(handleConnect, FIONBIO, &mode)
  let nb := if cfg.win32 then ioctlsocket handleConnect 1 sC.2 else (NO_ERROR, sC.2)
  if cfg.win32 = true ∧ nb.1 ≠ NO_ERROR then
    let errnum := readSocketErrno cfg nb.2
    throwErrnumException errnum.1 (closesocket handleConnect (closesocket handleListen errnum.2))
  else
  -- lines 72 to 76: ret = connect(handleConnect, addr, addrLen);
  -- if(ret != 0 && socket_errno != EWOULDBLOCK) the code raises `errno`
  let cn := connect handleConnect addr addrLen nb.2
  let chk := if cn.1 ≠ 0 then readSocketErrno cfg cn.2 else (0, cn.2)
  if cn.1 ≠ 0 ∧ chk.1 ≠ cfg.EWOULDBLOCK then
    throwErrnumException chk.2.err.errno chk.2
  else
  -- lines 78 to 83: len = addrLen; int handleAccept = accept(handleListen, addr, &len);
  let len := addrLen
  let ac := accept handleListen len chk.2
  let handleAccept := ac.1
  if handleAccept < 0 then throwSocketErrno cfg ac.2 else
  -- line 85: closesocket(handleListen);
  let wc := closesocket handleListen ac.2
  -- lines 87 to 96 (_WIN32): mode = 0; ioctlsocket(handleConnect, FIONBIO, &mode)
  let bl := if cfg.win32 then ioctlsocket handleConnect 0 wc else (NO_ERROR, wc)
  if cfg.win32 = true ∧ bl.1 ≠ NO_ERROR then
    let errnum := readSocketErrno cfg bl.2
    throwErrnumException errnum.1 (closesocket handleConnect (closesocket handleAccept errnum.2))
  else
  -- lines 98 and 99: _initFD(env, fd1, handleAccept); _initFD(env, fd2, handleConnect);
  initFD fd2 handleConnect (initFD fd1 handleAccept bl.2)

/-- The address the orchestrator builds for the no-native-primitive platform
(lines 122 to 126). -/
def loopbackAddr (cfg : Config) : SockAddr :=
  .sockaddr_in cfg.AF_INET (htonl cfg 0x7F000001) 0

/-- The address the orchestrator builds for the virtual-socket family
(lines 155 to 166). -/
def vsockAddr (cfg : Config) : SockAddr :=
  .sockaddr_vm (if cfg.have_sun_len then some cfg.sizeof_sockaddr_vm else none)
    cfg.AF_VSOCK cfg.VMADDR_PORT_ANY
    (if cfg.have_VMADDR_CID_LOCAL then cfg.VMADDR_CID_LOCAL else cfg.VMADDR_CID_RESERVED)

/-- The calls of the native pair primitive (lines 129 to 149): the final `ret`,
the content of `socket_vector`, and the world afterwards. -/
def nativeAttempt (cfg : Config) (domain type : Int) (w : World) :
    (Int × (Int × Int)) × World :=
  if cfg.have_socket_cloexec then
    if cfg.supportsUNIX then
      -- line 133: ret = socketpair(domain, type, SOCK_CLOEXEC, socket_vector);
      let p1 := socketpair domain type cfg.SOCK_CLOEXEC (0, 0) w
      -- line 134: if(ret == -1 && errno == EPROTONOSUPPORT)
      if p1.1.1 = -1 ∧ p1.2.err.errno = cfg.EPROTONOSUPPORT then
        -- line 135: ret = socketpair(domain, type, 0, socket_vector);
        let p2 := socketpair domain type 0 p1.1.2 p1.2
        if p2.1.1 = 0 then
          -- lines 137 to 140, under #if defined(FD_CLOEXEC)
          if cfg.have_FD_CLOEXEC then
            (p2.1, fcntl p2.1.2.2 (fcntl p2.1.2.1 p2.2))
          else p2
        else p2
      else p1
    else
      -- line 145
      socketpair domain type 0 (0, 0) w
  else
    -- line 148
    socketpair domain type 0 (0, 0) w

/-- The function `Java_org_newsclub_net_unix_NativeUnixSocket_socketPair`
(lines 108 to 183). -/
def socketPair (cfg : Config) (domain type : Int) (fd1 fd2 : Slot) (w : World) : World :=
  -- lines 110 to 114
  let domain := cfg.domainToNative domain
  if domain = -1 then w.log (.throwException .kExceptionSocketException "Unsupported domain") else
  -- lines 116 to 119
  let st := sockTypeToNative cfg type w
  let type := st.1
  if type = -1 then st.2 else
  if cfg.win32 then
    -- lines 122 to 127
    simulateSocketPair cfg cfg.AF_INET type fd1 fd2 cfg.sizeof_sockaddr_in (loopbackAddr cfg) st.2
  else
    let na := nativeAttempt cfg domain type st.2
    let ret := na.1.1
    let socket_vector := na.1.2
    -- lines 150 to 176
    if ret = -1 then
      let myerr := readSocketErrno cfg na.2
      if myerr.1 = cfg.EOPNOTSUPP ∧ cfg.have_vsock = true ∧ domain = cfg.AF_VSOCK then
        simulateSocketPair cfg domain type fd1 fd2 cfg.sizeof_sockaddr_vm (vsockAddr cfg) myerr.2
      else
        throwErrnumException myerr.1 myerr.2
    else
      -- lines 178 and 179
      initFD fd2 socket_vector.2 (initFD fd1 socket_vector.1 na.2)

/-! ## Observations on a trace -/

/-- Handles an event brings into existence. -/
def Event.opened : Event → List Int
  | .socket _ _ _ ret => if 0 ≤ ret then [ret] else []
  | .accept _ _ ret => if 0 ≤ ret then [ret] else []
  | .socketpair _ _ _ _ (some sv) => [sv.1, sv.2]
  | _ => []

/-- One step of the handle bookkeeping: `closesocket` releases its handle,
a successful creating call adds what it returns. -/
def trackHandles (live : List Int) : Event → List Int
  | .closesocket h => live.erase h
  | e => live ++ e.opened

/-- The handles created during the trace on which `closesocket` has not been
called, in order of creation. -/
def openHandles (t : List Event) : List Int := t.foldl trackHandles []

/-- The registrations `_initFD` received, in order. -/
def registered : List Event → List (Slot × Int)
  | [] => []
  | .initFD s h :: t => (s, h) :: registered t
  | _ :: t => registered t

/-- The errors handed to the error sink, in order. -/
def raised : List Event → List Event
  | [] => []
  | .throwErrnum c :: t => .throwErrnum c :: raised t
  | .throwException k m :: t => .throwException k m :: raised t
  | .throwUnsupportedType :: t => .throwUnsupportedType :: raised t
  | _ :: t => raised t

/-- Whether the event hands an error to the error sink. -/
def Event.isRaise : Event → Bool
  | .throwErrnum _ => true
  | .throwException _ _ => true
  | .throwUnsupportedType => true
  | _ => false

/-- The events of a run up to its first raised error. -/
def beforeRaise (t : List Event) : List Event := t.takeWhile (fun e => !e.isRaise)

/-- The events `evs` of a run raise exactly one error, as the last action of the
run, and `live` are the handles created in the run that are open at that point. -/
def RaisesLeaving (evs : List Event) (live : List Int) : Prop :=
  (raised evs).length = 1 ∧ evs = beforeRaise evs ++ raised evs ∧
    openHandles (beforeRaise evs) = live

/-- Whether the event is one of the socket calls `socket`, `socketpair`, `bind`,
`listen`, `connect`, `accept`. -/
def Event.isSocketCall : Event → Bool
  | .socket _ _ _ _ => true
  | .socketpair _ _ _ _ _ => true
  | .bind _ _ _ _ => true
  | .listen _ _ _ => true
  | .connect _ _ _ _ => true
  | .accept _ _ _ => true
  | _ => false

/-- Number of socket calls in a trace. -/
def syscallCount (t : List Event) : Nat := (t.filter Event.isSocketCall).length

/-- The events of a run of the emulator in which every step succeeds. -/
def emulationTrace (cfg : Config) (domain type : Int) (fd1 fd2 : Slot) (addrLen : Nat)
    (given bound resolved : SockAddr) (L C A connectRet : Int) : List Event :=
  [.socket domain type 0 L, .fixupSocketAddress L given, .bind L bound addrLen 0,
   .listen L 1 0, .getsockname L addrLen 0, .socket domain type 0 C]
  ++ (if cfg.win32 then [.ioctlsocket C 1 NO_ERROR] else [])
  ++ [.connect C resolved addrLen connectRet, .accept L addrLen A, .closesocket L]
  ++ (if cfg.win32 then [.ioctlsocket C 0 NO_ERROR] else [])
  ++ [.initFD fd1 A, .initFD fd2 C]

/-- Whether the event is a call that only the emulation protocol makes: `socket`,
`fixupSocketAddress`, `bind`, `listen`, `getsockname`, `ioctlsocket`, `connect`,
`accept`, `closesocket`. -/
def Event.isEmulationCall : Event → Bool
  | .socket _ _ _ _ => true
  | .fixupSocketAddress _ _ => true
  | .bind _ _ _ _ => true
  | .listen _ _ _ => true
  | .getsockname _ _ _ => true
  | .ioctlsocket _ _ _ => true
  | .connect _ _ _ _ => true
  | .accept _ _ _ => true
  | .closesocket _ => true
  | _ => false

/-- Number of calls of the emulation protocol in a trace. -/
def emulationCalls (t : List Event) : Nat := (t.filter Event.isEmulationCall).length

/-- Number of calls of the native pair primitive in a trace. -/
def nativeCalls : List Event → Nat
  | [] => 0
  | .socketpair _ _ _ _ _ :: t => nativeCalls t + 1
  | _ :: t => nativeCalls t

/-- The events a run appended to the trace: `w` is the world before the run,
`w'` the world after it. -/
def newEvents (w w' : World) : List Event := w'.trace.drop w.trace.length

/-! ## Two concrete platforms -/

/-- A Linux build with virtual sockets: `socket_errno` is `errno`. -/
def linuxCfg : Config where
  win32 := false
  have_vsock := true
  have_socket_cloexec := true
  have_FD_CLOEXEC := true
  have_sun_len := false
  have_VMADDR_CID_LOCAL := true
  supportsUNIX := true
  littleEndian := true
  AF_INET := 2
  AF_VSOCK := 40
  SOCK_CLOEXEC := 524288
  EPROTONOSUPPORT := 93
  EOPNOTSUPP := 95
  EWOULDBLOCK := 11
  VMADDR_PORT_ANY := 4294967295
  VMADDR_CID_LOCAL := 1
  VMADDR_CID_RESERVED := 1
  sizeof_sockaddr_in := 16
  sizeof_sockaddr_vm := 16
  domainToNative := fun d => if d = 1 then 1 else if d = 40 then 40 else -1
  sockTypeTable := fun t => if t = 1 then 1 else if t = 2 then 2 else -1
  socket_errno := fun ev => (ev.errno, ev)

/-- A build with SOCK_CLOEXEC but without `FD_CLOEXEC`: the constants of the
Linux build, with `defined(FD_CLOEXEC)` false. -/
def noFdCloexecCfg : Config := { linuxCfg with have_FD_CLOEXEC := false }

/-- A Windows build: no native pair primitive.  Here `socket_errno` reads the
Winsock last error and leaves `errno` alone, which is one possible definition of
the macro; config.h is not among the sources. -/
def win32Cfg : Config where
  win32 := true
  have_vsock := false
  have_socket_cloexec := false
  have_FD_CLOEXEC := false
  have_sun_len := false
  have_VMADDR_CID_LOCAL := false
  supportsUNIX := true
  littleEndian := true
  AF_INET := 2
  AF_VSOCK := 34
  SOCK_CLOEXEC := 0
  EPROTONOSUPPORT := 10043
  EOPNOTSUPP := 10045
  EWOULDBLOCK := 10035
  VMADDR_PORT_ANY := 4294967295
  VMADDR_CID_LOCAL := 1
  VMADDR_CID_RESERVED := 1
  sizeof_sockaddr_in := 16
  sizeof_sockaddr_vm := 16
  domainToNative := fun d => if d = 1 then 1 else -1
  sockTypeTable := fun t => if t = 1 then 1 else if t = 2 then 2 else -1
  socket_errno := fun ev => (ev.wsaLastError, ev)

/-! ## Basic facts about worlds -/

@[simp] theorem World.answer_log (w : World) (e : Event) (k : Nat) :
    (w.log e).answer k = w.answer k := rfl

@[simp] theorem World.answer_advance (w : World) (k : Nat) :
    w.advance.answer k = w.answer (k + 1) := by
  simp [World.answer, World.advance, Nat.add_comm, Nat.add_left_comm]

@[simp] theorem World.reply_eq (w : World) : w.reply = w.answer 0 := rfl

@[simp] theorem World.trace_log (w : World) (e : Event) :
    (w.log e).trace = w.trace ++ [e] := rfl

@[simp] theorem World.trace_advance (w : World) : w.advance.trace = w.trace := rfl

@[simp] theorem World.err_log (w : World) (e : Event) : (w.log e).err = w.err := rfl

@[simp] theorem World.answer_setErr (w : World) (ev : ErrVars) (k : Nat) :
    (w.setErr ev).answer k = w.answer k := rfl

@[simp] theorem World.trace_setErr (w : World) (ev : ErrVars) :
    (w.setErr ev).trace = w.trace := rfl

@[simp] theorem World.err_setErr (w : World) (ev : ErrVars) : (w.setErr ev).err = ev := rfl

@[simp] theorem World.setErr_self (w : World) : w.setErr w.err = w := rfl

@[simp] theorem World.err_advance (w : World) :
    w.advance.err = ((w.answer 0).newErr).getD w.err := rfl

@[simp] theorem Reply.newErr_ok (h1 h2 : Nat) (a : Option SockAddr) (e : Option ErrVars) :
    (Reply.ok h1 h2 a e).newErr = e := rfl

@[simp] theorem Reply.newErr_fail (e : Option ErrVars) : (Reply.fail e).newErr = e := rfl

@[simp] theorem Reply.handle_ok (h1 h2 : Nat) (a : Option SockAddr) (e : Option ErrVars) :
    (Reply.ok h1 h2 a e).handle = (h1 : Int) := rfl

@[simp] theorem Reply.handle_fail (e : Option ErrVars) : (Reply.fail e).handle = -1 := rfl

@[simp] theorem Reply.status_ok (h1 h2 : Nat) (a : Option SockAddr) (e : Option ErrVars) :
    (Reply.ok h1 h2 a e).status = 0 := rfl

@[simp] theorem Reply.status_fail (e : Option ErrVars) : (Reply.fail e).status = -1 := rfl

theorem Reply.eq_ok_of_handle {r : Reply} {n : Nat} (h : r.handle = (n : Int)) :
    ∃ x a e, r = Reply.ok n x a e := by
  cases r with
  | ok h1 h2 a e =>
    simp only [Reply.handle_ok, Nat.cast_inj] at h
    exact ⟨h2, a, e, by rw [h]⟩
  | fail e =>
    simp only [Reply.handle_fail] at h
    omega

theorem Reply.eq_ok_of_status {r : Reply} (h : r.status = 0) :
    ∃ n x a e, r = Reply.ok n x a e := by
  cases r with
  | ok h1 h2 a e => exact ⟨h1, h2, a, e, rfl⟩
  | fail e => simp at h

theorem Reply.eq_fail_of_handle {r : Reply} (h : r.handle < 0) : ∃ e, r = Reply.fail e := by
  cases r with
  | ok h1 h2 a e =>
    simp only [Reply.handle_ok] at h
    omega
  | fail e => exact ⟨e, rfl⟩

theorem Reply.eq_fail_of_status {r : Reply} (h : r.status ≠ 0) : ∃ e, r = Reply.fail e := by
  cases r with
  | ok h1 h2 a e => simp at h
  | fail e => exact ⟨e, rfl⟩

@[simp] theorem erase_pair_second (a b : Int) : [a, b].erase b = [a] := by
  by_cases h : a = b
  · subst h; simp
  · simp [List.erase_cons, h]

@[simp] theorem natCast_not_neg (n : Nat) : ¬ ((n : Int) < 0) := by omega

set_option maxHeartbeats 1600000 in
/-- Every run of the emulator appends to the trace, never calls the native
primitive, and either raises an error without registering anything or is a
successful emulation. -/
theorem simulateSocketPair_outcome (cfg : Config) (domain type : Int) (fd1 fd2 : Slot) (addrLen : Nat)
    (addr : SockAddr) (w : World) :
    ∃ evs, (simulateSocketPair cfg domain type fd1 fd2 addrLen addr w).trace = w.trace ++ evs ∧
      nativeCalls evs = 0 ∧
      ((raised evs ≠ [] ∧ registered evs = []) ∨
       (∃ L C A : Nat, ∃ cr bound resolved,
          evs = emulationTrace cfg domain type fd1 fd2 addrLen addr bound resolved L C A cr)) := by
  cases hwin : cfg.win32
  · rcases h0 : w.answer 0 with ⟨p0, q0, a0, e0⟩ | e0
    swap; · simp [simulateSocketPair, emulationTrace, raised, registered, nativeCalls, *]
    rcases h2 : w.answer 2 with ⟨p2, q2, a2, e2⟩ | e2
    swap; · simp [simulateSocketPair, emulationTrace, raised, registered, nativeCalls, *]
    rcases h3 : w.answer 3 with ⟨p3, q3, a3, e3⟩ | e3
    swap; · simp [simulateSocketPair, emulationTrace, raised, registered, nativeCalls, *]
    rcases h4 : w.answer 4 with ⟨p4, q4, a4, e4⟩ | e4
    swap; · simp [simulateSocketPair, emulationTrace, raised, registered, nativeCalls, *]
    rcases h5 : w.answer 5 with ⟨p5, q5, a5, e5⟩ | e5
    swap; · simp [simulateSocketPair, emulationTrace, raised, registered, nativeCalls, *]
    rcases h7 : w.answer 7 with ⟨p7, q7, a7, e7⟩ | e7
    swap
    · rcases h6 : w.answer 6 with ⟨p6, q6, a6, e6⟩ | e6
      · simp [simulateSocketPair, emulationTrace, raised, registered, nativeCalls, *]
      · simp [simulateSocketPair, emulationTrace, raised, registered, nativeCalls, *]
        split_ifs <;> simp [raised, registered, nativeCalls]
    rcases h6 : w.answer 6 with ⟨p6, q6, a6, e6⟩ | e6
    · simp [simulateSocketPair, emulationTrace, raised, registered, nativeCalls, *]
    · simp [simulateSocketPair, emulationTrace, raised, registered, nativeCalls, *]
      split_ifs <;> simp [raised, registered, nativeCalls]
  · rcases h0 : w.answer 0 with ⟨p0, q0, a0, e0⟩ | e0
    swap; · simp [simulateSocketPair, emulationTrace, raised, registered, nativeCalls, *]
    rcases h2 : w.answer 2 with ⟨p2, q2, a2, e2⟩ | e2
    swap; · simp [simulateSocketPair, emulationTrace, raised, registered, nativeCalls, *]
    rcases h3 : w.answer 3 with ⟨p3, q3, a3, e3⟩ | e3
    swap; · simp [simulateSocketPair, emulationTrace, raised, registered, nativeCalls, *]
    rcases h4 : w.answer 4 with ⟨p4, q4, a4, e4⟩ | e4
    swap; · simp [simulateSocketPair, emulationTrace, raised, registered, nativeCalls, *]
    rcases h5 : w.answer 5 with ⟨p5, q5, a5, e5⟩ | e5
    swap; · simp [simulateSocketPair, emulationTrace, raised, registered, nativeCalls, *]
    rcases h6 : w.answer 6 with ⟨p6, q6, a6, e6⟩ | e6
    swap; · simp [simulateSocketPair, emulationTrace, raised, registered, nativeCalls, *]
    rcases h8 : w.answer 8 with ⟨p8, q8, a8, e8⟩ | e8
    swap
    · rcases h7 : w.answer 7 with ⟨p7, q7, a7, e7⟩ | e7
      · simp [simulateSocketPair, emulationTrace, raised, registered, nativeCalls, *]
      · simp [simulateSocketPair, emulationTrace, raised, registered, nativeCalls, *]
        split_ifs <;> simp [raised, registered, nativeCalls]
    rcases h10 : w.answer 10 with ⟨p10, q10, a10, e10⟩ | e10
    swap
    · rcases h7 : w.answer 7 with ⟨p7, q7, a7, e7⟩ | e7
      · simp [simulateSocketPair, emulationTrace, raised, registered, nativeCalls, *]
      · simp [simulateSocketPair, emulationTrace, raised, registered, nativeCalls, *]
        split_ifs <;> simp [raised, registered, nativeCalls]
    rcases h7 : w.answer 7 with ⟨p7, q7, a7, e7⟩ | e7
    · simp [simulateSocketPair, emulationTrace, raised, registered, nativeCalls, *]
    · simp [simulateSocketPair, emulationTrace, raised, registered, nativeCalls, *]
      split_ifs <;> simp [raised, registered, nativeCalls]

/-! ## Handles left open by a failing emulation -/

/-- Claim C10: the handles created by `simulateSocketPair` that are still open
when it raises, by failing step.  Creating L fails: none.  `bind`, `listen` or
`getsockname` fails: exactly L.  Creating C fails: none.  Switching C to
non-blocking fails: none.  `connect` fails with a code other than EWOULDBLOCK,
or `accept` fails: exactly L and C.  Restoring C to blocking fails: none.  In
each case the run raises exactly one error, as its last action, and the handles
are those open at that point. -/
theorem simulateSocketPair_open_handles_at_raise (cfg : Config) (domain type : Int)
    (fd1 fd2 : Slot) (addrLen : Nat) (addr : SockAddr) (w : World) (L C A : Nat) :
    ((w.answer 0).handle < 0 →
      RaisesLeaving (newEvents w (simulateSocketPair cfg domain type fd1 fd2 addrLen addr w))
        []) ∧
    ((w.answer 0).handle = L → (w.answer 2).status ≠ 0 →
      RaisesLeaving (newEvents w (simulateSocketPair cfg domain type fd1 fd2 addrLen addr w))
        [(L : Int)]) ∧
    ((w.answer 0).handle = L → (w.answer 2).status = 0 → (w.answer 3).status ≠ 0 →
      RaisesLeaving (newEvents w (simulateSocketPair cfg domain type fd1 fd2 addrLen addr w))
        [(L : Int)]) ∧
    ((w.answer 0).handle = L → (w.answer 2).status = 0 → (w.answer 3).status = 0 →
      (w.answer 4).status ≠ 0 →
      RaisesLeaving (newEvents w (simulateSocketPair cfg domain type fd1 fd2 addrLen addr w))
        [(L : Int)]) ∧
    ((w.answer 0).handle = L → (w.answer 2).status = 0 → (w.answer 3).status = 0 →
      (w.answer 4).status = 0 → (w.answer 5).handle < 0 →
      RaisesLeaving (newEvents w (simulateSocketPair cfg domain type fd1 fd2 addrLen addr w))
        []) ∧
    (cfg.win32 = true → (w.answer 0).handle = L → (w.answer 2).status = 0 →
      (w.answer 3).status = 0 → (w.answer 4).status = 0 → (w.answer 5).handle = C →
      (w.answer 6).status ≠ 0 →
      RaisesLeaving (newEvents w (simulateSocketPair cfg domain type fd1 fd2 addrLen addr w))
        []) ∧
    (cfg.win32 = false → (w.answer 0).handle = L → (w.answer 2).status = 0 →
      (w.answer 3).status = 0 → (w.answer 4).status = 0 → (w.answer 5).handle = C →
      (w.answer 6).status ≠ 0 → (cfg.socket_errno (w.errAt 7)).1 ≠ cfg.EWOULDBLOCK →
      RaisesLeaving (newEvents w (simulateSocketPair cfg domain type fd1 fd2 addrLen addr w))
        [(L : Int), (C : Int)]) ∧
    (cfg.win32 = true → (w.answer 0).handle = L → (w.answer 2).status = 0 →
      (w.answer 3).status = 0 → (w.answer 4).status = 0 → (w.answer 5).handle = C →
      (w.answer 6).status = 0 → (w.answer 7).status ≠ 0 →
      (cfg.socket_errno (w.errAt 8)).1 ≠ cfg.EWOULDBLOCK →
      RaisesLeaving (newEvents w (simulateSocketPair cfg domain type fd1 fd2 addrLen addr w))
        [(L : Int), (C : Int)]) ∧
    (cfg.win32 = false → (w.answer 0).handle = L → (w.answer 2).status = 0 →
      (w.answer 3).status = 0 → (w.answer 4).status = 0 → (w.answer 5).handle = C →
      ((w.answer 6).status = 0 ∨ (cfg.socket_errno (w.errAt 7)).1 = cfg.EWOULDBLOCK) →
      (w.answer 7).handle < 0 →
      RaisesLeaving (newEvents w (simulateSocketPair cfg domain type fd1 fd2 addrLen addr w))
        [(L : Int), (C : Int)]) ∧
    (cfg.win32 = true → (w.answer 0).handle = L → (w.answer 2).status = 0 →
      (w.answer 3).status = 0 → (w.answer 4).status = 0 → (w.answer 5).handle = C →
      (w.answer 6).status = 0 →
      ((w.answer 7).status = 0 ∨ (cfg.socket_errno (w.errAt 8)).1 = cfg.EWOULDBLOCK) →
      (w.answer 8).handle < 0 →
      RaisesLeaving (newEvents w (simulateSocketPair cfg domain type fd1 fd2 addrLen addr w))
        [(L : Int), (C : Int)]) ∧
    (cfg.win32 = true → (w.answer 0).handle = L → (w.answer 2).status = 0 →
      (w.answer 3).status = 0 → (w.answer 4).status = 0 → (w.answer 5).handle = C →
      (w.answer 6).status = 0 →
      ((w.answer 7).status = 0 ∨ (cfg.socket_errno (w.errAt 8)).1 = cfg.EWOULDBLOCK) →
      (w.answer 8).handle = A → (w.answer 10).status ≠ 0 →
      RaisesLeaving (newEvents w (simulateSocketPair cfg domain type fd1 fd2 addrLen addr w))
        []) := by
  refine ⟨?_, ?_⟩
  -- creating L fails
  · intro h0
    obtain ⟨e_0, h0⟩ := Reply.eq_fail_of_handle h0
    simp [simulateSocketPair, RaisesLeaving, newEvents, raised, beforeRaise, Event.isRaise,
      openHandles, trackHandles, Event.opened, *]
  refine ⟨?_, ?_⟩
  -- `bind` fails
  · intro h0 h1
    obtain ⟨x_0, a_0, e_0, h0⟩ := Reply.eq_ok_of_handle h0
    obtain ⟨e_1, h1⟩ := Reply.eq_fail_of_status h1
    simp [simulateSocketPair, RaisesLeaving, newEvents, raised, beforeRaise, Event.isRaise,
      openHandles, trackHandles, Event.opened, *]
  refine ⟨?_, ?_⟩
  -- `listen` fails
  · intro h0 h1 h2
    obtain ⟨x_0, a_0, e_0, h0⟩ := Reply.eq_ok_of_handle h0
    obtain ⟨p_1, x_1, a_1, e_1, h1⟩ := Reply.eq_ok_of_status h1
    obtain ⟨e_2, h2⟩ := Reply.eq_fail_of_status h2
    simp [simulateSocketPair, RaisesLeaving, newEvents, raised, beforeRaise, Event.isRaise,
      openHandles, trackHandles, Event.opened, *]
  refine ⟨?_, ?_⟩
  -- `getsockname` fails
  · intro h0 h1 h2 h3
    obtain ⟨x_0, a_0, e_0, h0⟩ := Reply.eq_ok_of_handle h0
    obtain ⟨p_1, x_1, a_1, e_1, h1⟩ := Reply.eq_ok_of_status h1
    obtain ⟨p_2, x_2, a_2, e_2, h2⟩ := Reply.eq_ok_of_status h2
    obtain ⟨e_3, h3⟩ := Reply.eq_fail_of_status h3
    simp [simulateSocketPair, RaisesLeaving, newEvents, raised, beforeRaise, Event.isRaise,
      openHandles, trackHandles, Event.opened, *]
  refine ⟨?_, ?_⟩
  -- creating C fails
  · intro h0 h1 h2 h3 h4
    obtain ⟨x_0, a_0, e_0, h0⟩ := Reply.eq_ok_of_handle h0
    obtain ⟨p_1, x_1, a_1, e_1, h1⟩ := Reply.eq_ok_of_status h1
    obtain ⟨p_2, x_2, a_2, e_2, h2⟩ := Reply.eq_ok_of_status h2
    obtain ⟨p_3, x_3, a_3, e_3, h3⟩ := Reply.eq_ok_of_status h3
    obtain ⟨e_4, h4⟩ := Reply.eq_fail_of_handle h4
    simp [simulateSocketPair, RaisesLeaving, newEvents, raised, beforeRaise, Event.isRaise,
      openHandles, trackHandles, Event.opened, *]
  refine ⟨?_, ?_⟩
  -- switching C to non-blocking fails
  · intro h0 h1 h2 h3 h4 h5 h6
    obtain ⟨x_1, a_1, e_1, h1⟩ := Reply.eq_ok_of_handle h1
    obtain ⟨p_2, x_2, a_2, e_2, h2⟩ := Reply.eq_ok_of_status h2
    obtain ⟨p_3, x_3, a_3, e_3, h3⟩ := Reply.eq_ok_of_status h3
    obtain ⟨p_4, x_4, a_4, e_4, h4⟩ := Reply.eq_ok_of_status h4
    obtain ⟨x_5, a_5, e_5, h5⟩ := Reply.eq_ok_of_handle h5
    obtain ⟨e_6, h6⟩ := Reply.eq_fail_of_status h6
    simp [simulateSocketPair, RaisesLeaving, newEvents, raised, beforeRaise, Event.isRaise,
      openHandles, trackHandles, Event.opened, *]
  refine ⟨?_, ?_⟩
  -- `connect` fails fatally, without `_WIN32`
  · intro h0 h1 h2 h3 h4 h5 h6 h7
    obtain ⟨x_1, a_1, e_1, h1⟩ := Reply.eq_ok_of_handle h1
    obtain ⟨p_2, x_2, a_2, e_2, h2⟩ := Reply.eq_ok_of_status h2
    obtain ⟨p_3, x_3, a_3, e_3, h3⟩ := Reply.eq_ok_of_status h3
    obtain ⟨p_4, x_4, a_4, e_4, h4⟩ := Reply.eq_ok_of_status h4
    obtain ⟨x_5, a_5, e_5, h5⟩ := Reply.eq_ok_of_handle h5
    obtain ⟨e_6, h6⟩ := Reply.eq_fail_of_status h6
    simp [World.errAt, *] at h7
    simp [simulateSocketPair, RaisesLeaving, newEvents, raised, beforeRaise, Event.isRaise,
      openHandles, trackHandles, Event.opened, *]
  refine ⟨?_, ?_⟩
  -- `connect` fails fatally, with `_WIN32`
  · intro h0 h1 h2 h3 h4 h5 h6 h7 h8
    obtain ⟨x_1, a_1, e_1, h1⟩ := Reply.eq_ok_of_handle h1
    obtain ⟨p_2, x_2, a_2, e_2, h2⟩ := Reply.eq_ok_of_status h2
    obtain ⟨p_3, x_3, a_3, e_3, h3⟩ := Reply.eq_ok_of_status h3
    obtain ⟨p_4, x_4, a_4, e_4, h4⟩ := Reply.eq_ok_of_status h4
    obtain ⟨x_5, a_5, e_5, h5⟩ := Reply.eq_ok_of_handle h5
    obtain ⟨p_6, x_6, a_6, e_6, h6⟩ := Reply.eq_ok_of_status h6
    obtain ⟨e_7, h7⟩ := Reply.eq_fail_of_status h7
    simp [World.errAt, *] at h8
    simp [simulateSocketPair, RaisesLeaving, newEvents, raised, beforeRaise, Event.isRaise,
      openHandles, trackHandles, Event.opened, *]
  refine ⟨?_, ?_⟩
  -- `accept` fails, without `_WIN32`
  · intro h0 h1 h2 h3 h4 h5 h6 h7
    obtain ⟨x_1, a_1, e_1, h1⟩ := Reply.eq_ok_of_handle h1
    obtain ⟨p_2, x_2, a_2, e_2, h2⟩ := Reply.eq_ok_of_status h2
    obtain ⟨p_3, x_3, a_3, e_3, h3⟩ := Reply.eq_ok_of_status h3
    obtain ⟨p_4, x_4, a_4, e_4, h4⟩ := Reply.eq_ok_of_status h4
    obtain ⟨x_5, a_5, e_5, h5⟩ := Reply.eq_ok_of_handle h5
    obtain ⟨e_7, h7⟩ := Reply.eq_fail_of_handle h7
    rcases hc : w.answer 6 with ⟨p_c, x_c, a_c, e_c⟩ | e_c
    · simp [simulateSocketPair, RaisesLeaving, newEvents, raised, beforeRaise, Event.isRaise,
        openHandles, trackHandles, Event.opened, *]
    · simp [World.errAt, *] at h6
      simp [simulateSocketPair, RaisesLeaving, newEvents, raised, beforeRaise, Event.isRaise,
        openHandles, trackHandles, Event.opened, *]
  refine ⟨?_, ?_⟩
  -- `accept` fails, with `_WIN32`
  · intro h0 h1 h2 h3 h4 h5 h6 h7 h8
    obtain ⟨x_1, a_1, e_1, h1⟩ := Reply.eq_ok_of_handle h1
    obtain ⟨p_2, x_2, a_2, e_2, h2⟩ := Reply.eq_ok_of_status h2
    obtain ⟨p_3, x_3, a_3, e_3, h3⟩ := Reply.eq_ok_of_status h3
    obtain ⟨p_4, x_4, a_4, e_4, h4⟩ := Reply.eq_ok_of_status h4
    obtain ⟨x_5, a_5, e_5, h5⟩ := Reply.eq_ok_of_handle h5
    obtain ⟨p_6, x_6, a_6, e_6, h6⟩ := Reply.eq_ok_of_status h6
    obtain ⟨e_8, h8⟩ := Reply.eq_fail_of_handle h8
    rcases hc : w.answer 7 with ⟨p_c, x_c, a_c, e_c⟩ | e_c
    · simp [simulateSocketPair, RaisesLeaving, newEvents, raised, beforeRaise, Event.isRaise,
        openHandles, trackHandles, Event.opened, *]
    · simp [World.errAt, *] at h7
      simp [simulateSocketPair, RaisesLeaving, newEvents, raised, beforeRaise, Event.isRaise,
        openHandles, trackHandles, Event.opened, *]
  -- restoring C to blocking fails
  · intro h0 h1 h2 h3 h4 h5 h6 h7 h8 h9
    obtain ⟨x_1, a_1, e_1, h1⟩ := Reply.eq_ok_of_handle h1
    obtain ⟨p_2, x_2, a_2, e_2, h2⟩ := Reply.eq_ok_of_status h2
    obtain ⟨p_3, x_3, a_3, e_3, h3⟩ := Reply.eq_ok_of_status h3
    obtain ⟨p_4, x_4, a_4, e_4, h4⟩ := Reply.eq_ok_of_status h4
    obtain ⟨x_5, a_5, e_5, h5⟩ := Reply.eq_ok_of_handle h5
    obtain ⟨p_6, x_6, a_6, e_6, h6⟩ := Reply.eq_ok_of_status h6
    obtain ⟨x_8, a_8, e_8, h8⟩ := Reply.eq_ok_of_handle h8
    obtain ⟨e_9, h9⟩ := Reply.eq_fail_of_status h9
    rcases hc : w.answer 7 with ⟨p_c, x_c, a_c, e_c⟩ | e_c
    · simp [simulateSocketPair, RaisesLeaving, newEvents, raised, beforeRaise, Event.isRaise,
        openHandles, trackHandles, Event.opened, *]
    · simp [World.errAt, *] at h7
      simp [simulateSocketPair, RaisesLeaving, newEvents, raised, beforeRaise, Event.isRaise,
        openHandles, trackHandles, Event.opened, *]

/-- Witness for claim C10, on the Linux build: with `bind` failing the listener
(handle 3) is the one handle left open; with `accept` failing the listener and
the connector (handles 3 and 4) are left open. -/
theorem simulateSocketPair_open_handles_at_raise_witness :
    RaisesLeaving
      (newEvents (World.ofScript [.ok 3 0 none none, .ok 0 0 none none,
        .fail (some ⟨99, 0⟩)] ⟨0, 0⟩)
        (simulateSocketPair linuxCfg 40 1 .slot1 .slot2 16 (vsockAddr linuxCfg)
        (World.ofScript [.ok 3 0 none none, .ok 0 0 none none,
          .fail (some ⟨99, 0⟩)] ⟨0, 0⟩)))
      [3] ∧
    RaisesLeaving
      (newEvents (World.ofScript [.ok 3 0 none none, .ok 0 0 none none, .ok 0 0 none none,
        .ok 0 0 none none, .ok 0 0 none none, .ok 4 0 none none, .ok 0 0 none none,
        .fail (some ⟨24, 0⟩)] ⟨0, 0⟩)
        (simulateSocketPair linuxCfg 40 1 .slot1 .slot2 16 (vsockAddr linuxCfg)
        (World.ofScript [.ok 3 0 none none, .ok 0 0 none none, .ok 0 0 none none,
          .ok 0 0 none none, .ok 0 0 none none, .ok 4 0 none none, .ok 0 0 none none,
          .fail (some ⟨24, 0⟩)] ⟨0, 0⟩)))
      [3, 4] :=
  ⟨(simulateSocketPair_open_handles_at_raise linuxCfg 40 1 .slot1 .slot2 16 (vsockAddr linuxCfg)
      (World.ofScript [.ok 3 0 none none, .ok 0 0 none none,
        .fail (some ⟨99, 0⟩)] ⟨0, 0⟩) 3 4 5).2.1 rfl (by decide),
   (simulateSocketPair_open_handles_at_raise linuxCfg 40 1 .slot1 .slot2 16 (vsockAddr linuxCfg)
      (World.ofScript [.ok 3 0 none none, .ok 0 0 none none, .ok 0 0 none none,
        .ok 0 0 none none, .ok 0 0 none none, .ok 4 0 none none, .ok 0 0 none none,
        .fail (some ⟨24, 0⟩)] ⟨0, 0⟩) 3 4 5).2.2.2.2.2.2.2.2.1
      rfl rfl rfl rfl rfl rfl (Or.inl rfl) (by decide)⟩

/-! ## The order of operations of a successful emulation -/

/-- Claim C8: in a run of `simulateSocketPair` in which no step fails fatally
(`connect` returning 0, or non-zero with `socket_errno` equal to EWOULDBLOCK,
both let the run go on) the operations are, in this order: create L; address
fix-up on L; bind L to the given address buffer (as the fix-up left it); listen
on L with backlog 1; getsockname on L; create C; only with `_WIN32`, switch C to
non-blocking; connect C to the address getsockname wrote; accept once on L,
giving A; close L; only with `_WIN32`, switch C back to blocking; register A in
`fd1` and C in `fd2`. -/
theorem simulateSocketPair_operation_sequence :
    (∀ (cfg : Config) (domain type : Int) (fd1 fd2 : Slot) (addrLen : Nat) (addr : SockAddr)
        (w : World) (L C A : Nat),
      cfg.win32 = false →
      (w.answer 0).handle = L → (w.answer 2).status = 0 → (w.answer 3).status = 0 →
      (w.answer 4).status = 0 → (w.answer 5).handle = C →
      ((w.answer 6).status = 0 ∨ (cfg.socket_errno (w.errAt 7)).1 = cfg.EWOULDBLOCK) →
      (w.answer 7).handle = A →
      (simulateSocketPair cfg domain type fd1 fd2 addrLen addr w).trace = w.trace ++
        [.socket domain type 0 L,
         .fixupSocketAddress L addr,
         .bind L ((w.answer 1).writeAddr addr) addrLen 0,
         .listen L 1 0,
         .getsockname L addrLen 0,
         .socket domain type 0 C,
         .connect C ((w.answer 4).writeAddr ((w.answer 1).writeAddr addr)) addrLen
           (w.answer 6).status,
         .accept L addrLen A,
         .closesocket L,
         .initFD fd1 A,
         .initFD fd2 C]) ∧
    (∀ (cfg : Config) (domain type : Int) (fd1 fd2 : Slot) (addrLen : Nat) (addr : SockAddr)
        (w : World) (L C A : Nat),
      cfg.win32 = true →
      (w.answer 0).handle = L → (w.answer 2).status = 0 → (w.answer 3).status = 0 →
      (w.answer 4).status = 0 → (w.answer 5).handle = C → (w.answer 6).status = 0 →
      ((w.answer 7).status = 0 ∨ (cfg.socket_errno (w.errAt 8)).1 = cfg.EWOULDBLOCK) →
      (w.answer 8).handle = A → (w.answer 10).status = 0 →
      (simulateSocketPair cfg domain type fd1 fd2 addrLen addr w).trace = w.trace ++
        [.socket domain type 0 L,
         .fixupSocketAddress L addr,
         .bind L ((w.answer 1).writeAddr addr) addrLen 0,
         .listen L 1 0,
         .getsockname L addrLen 0,
         .socket domain type 0 C,
         .ioctlsocket C 1 0,
         .connect C ((w.answer 4).writeAddr ((w.answer 1).writeAddr addr)) addrLen
           (w.answer 7).status,
         .accept L addrLen A,
         .closesocket L,
         .ioctlsocket C 0 0,
         .initFD fd1 A,
         .initFD fd2 C]) := by
  constructor
  · intro cfg domain type fd1 fd2 addrLen addr w L C A hwin h0 h2 h3 h4 h5 h6 h7
    obtain ⟨x0, a0, e0, h0⟩ := Reply.eq_ok_of_handle h0
    obtain ⟨p2, x2, a2, e2, h2⟩ := Reply.eq_ok_of_status h2
    obtain ⟨p3, x3, a3, e3, h3⟩ := Reply.eq_ok_of_status h3
    obtain ⟨p4, x4, a4, e4, h4⟩ := Reply.eq_ok_of_status h4
    obtain ⟨x5, a5, e5, h5⟩ := Reply.eq_ok_of_handle h5
    obtain ⟨x7, a7, e7, h7⟩ := Reply.eq_ok_of_handle h7
    rcases hc : w.answer 6 with ⟨p6, x6, a6, e6⟩ | e6
    · simp [simulateSocketPair, *]
    · simp [World.errAt, *] at h6
      simp [simulateSocketPair, *]
  · intro cfg domain type fd1 fd2 addrLen addr w L C A hwin h0 h2 h3 h4 h5 h6 h7 h8 h10
    obtain ⟨x0, a0, e0, h0⟩ := Reply.eq_ok_of_handle h0
    obtain ⟨p2, x2, a2, e2, h2⟩ := Reply.eq_ok_of_status h2
    obtain ⟨p3, x3, a3, e3, h3⟩ := Reply.eq_ok_of_status h3
    obtain ⟨p4, x4, a4, e4, h4⟩ := Reply.eq_ok_of_status h4
    obtain ⟨x5, a5, e5, h5⟩ := Reply.eq_ok_of_handle h5
    obtain ⟨p6, x6, a6, e6, h6⟩ := Reply.eq_ok_of_status h6
    obtain ⟨x8, a8, e8, h8⟩ := Reply.eq_ok_of_handle h8
    obtain ⟨p10, x10, a10, e10, h10⟩ := Reply.eq_ok_of_status h10
    rcases hc : w.answer 7 with ⟨p7, x7, a7, e7⟩ | e7
    · simp [simulateSocketPair, *]
    · simp [World.errAt, *] at h7
      simp [simulateSocketPair, *]

/-- Witness for claim C8: on the Linux build, with every call succeeding, the
emulator for the virtual-socket family runs the eleven operations in order; on
the Windows build, with `connect` answering WSAEWOULDBLOCK, it runs the thirteen
operations in order. -/
theorem simulateSocketPair_operation_sequence_witness :
    (simulateSocketPair linuxCfg 40 1 .slot1 .slot2 16 (vsockAddr linuxCfg)
        (World.ofScript [.ok 3 0 none none, .ok 0 0 none none, .ok 0 0 none none,
          .ok 0 0 none none, .ok 0 0 (some (.written 7)) none, .ok 4 0 none none,
          .ok 0 0 none none, .ok 5 0 none none, .ok 0 0 none none] ⟨0, 0⟩)).trace =
      [.socket 40 1 0 3,
       .fixupSocketAddress 3 (.sockaddr_vm none 40 4294967295 1),
       .bind 3 (.sockaddr_vm none 40 4294967295 1) 16 0,
       .listen 3 1 0,
       .getsockname 3 16 0,
       .socket 40 1 0 4,
       .connect 4 (.written 7) 16 0,
       .accept 3 16 5,
       .closesocket 3,
       .initFD .slot1 5,
       .initFD .slot2 4] ∧
    (simulateSocketPair win32Cfg 2 1 .slot1 .slot2 16 (loopbackAddr win32Cfg)
        (World.ofScript [.ok 3 0 none none, .ok 0 0 none none, .ok 0 0 none none,
          .ok 0 0 none none, .ok 0 0 (some (.written 7)) none, .ok 4 0 none none,
          .ok 0 0 none none, .fail (some ⟨0, 10035⟩), .ok 5 0 none none, .ok 0 0 none none,
          .ok 0 0 none none] ⟨0, 0⟩)).trace =
      [.socket 2 1 0 3,
       .fixupSocketAddress 3 (.sockaddr_in 2 16777343 0),
       .bind 3 (.sockaddr_in 2 16777343 0) 16 0,
       .listen 3 1 0,
       .getsockname 3 16 0,
       .socket 2 1 0 4,
       .ioctlsocket 4 1 0,
       .connect 4 (.written 7) 16 (-1),
       .accept 3 16 5,
       .closesocket 3,
       .ioctlsocket 4 0 0,
       .initFD .slot1 5,
       .initFD .slot2 4] :=
  ⟨simulateSocketPair_operation_sequence.1 linuxCfg 40 1 .slot1 .slot2 16 (vsockAddr linuxCfg)
      (World.ofScript [.ok 3 0 none none, .ok 0 0 none none, .ok 0 0 none none,
          .ok 0 0 none none, .ok 0 0 (some (.written 7)) none, .ok 4 0 none none,
          .ok 0 0 none none, .ok 5 0 none none, .ok 0 0 none none] ⟨0, 0⟩) 3 4 5
      rfl rfl rfl rfl rfl rfl (Or.inl rfl) rfl,
   simulateSocketPair_operation_sequence.2 win32Cfg 2 1 .slot1 .slot2 16 (loopbackAddr win32Cfg)
      (World.ofScript [.ok 3 0 none none, .ok 0 0 none none, .ok 0 0 none none,
          .ok 0 0 none none, .ok 0 0 (some (.written 7)) none, .ok 4 0 none none,
          .ok 0 0 none none, .fail (some ⟨0, 10035⟩), .ok 5 0 none none, .ok 0 0 none none,
          .ok 0 0 none none] ⟨0, 0⟩) 3 4 5
      rfl rfl rfl rfl rfl rfl rfl (Or.inr rfl) rfl rfl⟩

/-! ## The two cleanup defects of `simulateSocketPair` -/

/-- Claim C2 (the code at a failing input): on the Linux build, a request for the
virtual-socket family whose native attempts fail with EPROTONOSUPPORT (93) and
EOPNOTSUPP (95) is emulated; the listener gets handle 3 and `bind` fails with
EADDRNOTAVAIL (99).  The error 99 is raised while handle 3 is still open: no
`closesocket` was issued on it. -/
theorem socketPair_bind_failure_leaves_listener_open :
    (socketPair linuxCfg 40 1 .slot1 .slot2
        (World.ofScript [.fail (some ⟨93, 0⟩), .fail (some ⟨95, 0⟩), .ok 3 0 none none,
          .ok 0 0 none none, .fail (some ⟨99, 0⟩)] ⟨0, 0⟩)).trace =
      [.socketpair 40 1 524288 (-1) none,
       .socketpair 40 1 0 (-1) none,
       .socket 40 1 0 3,
       .fixupSocketAddress 3 (.sockaddr_vm none 40 4294967295 1),
       .bind 3 (.sockaddr_vm none 40 4294967295 1) 16 (-1),
       .throwErrnum 99] ∧
    openHandles (socketPair linuxCfg 40 1 .slot1 .slot2
        (World.ofScript [.fail (some ⟨93, 0⟩), .fail (some ⟨95, 0⟩), .ok 3 0 none none,
          .ok 0 0 none none, .fail (some ⟨99, 0⟩)] ⟨0, 0⟩)).trace = [3] := by
  decide

/-- Claim C9 (the code at a failing input): on the Linux build, in an emulation
whose listener has handle 3, creating the connector fails with EMFILE (24); the
code then calls `closesocket` on the listener, which fails with EINTR (4), and
only then reads `socket_errno`.  The error raised carries 4, not 24. -/
theorem socketPair_connector_failure_reports_cleanup_code :
    (socketPair linuxCfg 40 1 .slot1 .slot2
        (World.ofScript [.fail (some ⟨93, 0⟩), .fail (some ⟨95, 0⟩), .ok 3 0 none none,
          .ok 0 0 none none, .ok 0 0 none none, .ok 0 0 none none,
          .ok 0 0 (some (.written 7)) none, .fail (some ⟨24, 0⟩),
          .fail (some ⟨4, 0⟩)] ⟨0, 0⟩)).trace =
      [.socketpair 40 1 524288 (-1) none,
       .socketpair 40 1 0 (-1) none,
       .socket 40 1 0 3,
       .fixupSocketAddress 3 (.sockaddr_vm none 40 4294967295 1),
       .bind 3 (.sockaddr_vm none 40 4294967295 1) 16 0,
       .listen 3 1 0,
       .getsockname 3 16 0,
       .socket 40 1 0 (-1),
       .closesocket 3,
       .throwErrnum 4] := by
  decide

/-- The second defect behind claim C9, on the Windows build, where `socket_errno`
reads the Winsock last error: `connect` fails with WSAECONNREFUSED (10061) while
`errno` still holds 0 from before.  The code tests `socket_errno` but raises
`errno`: the error carries 0, not 10061. -/
theorem socketPair_connect_failure_reports_other_variable :
    (socketPair win32Cfg 1 1 .slot1 .slot2
        (World.ofScript [.ok 3 0 none none, .ok 0 0 none none, .ok 0 0 none none,
          .ok 0 0 none none, .ok 0 0 (some (.written 7)) none, .ok 4 0 none none,
          .ok 0 0 none none, .fail (some ⟨0, 10061⟩)] ⟨0, 0⟩)).trace =
      [.socket 2 1 0 3,
       .fixupSocketAddress 3 (.sockaddr_in 2 16777343 0),
       .bind 3 (.sockaddr_in 2 16777343 0) 16 0,
       .listen 3 1 0,
       .getsockname 3 16 0,
       .socket 2 1 0 4,
       .ioctlsocket 4 1 0,
       .connect 4 (.written 7) 16 (-1),
       .throwErrnum 0] := by
  decide

/-- The sibling path of the first defect: when switching C to non-blocking fails,
the code saves `socket_errno` before it closes L and C, so the error raised
carries the code of the failed switch whatever the two `closesocket` calls do to
the error variables. -/
theorem simulateSocketPair_mode_switch_failure_keeps_code (cfg : Config) (domain type : Int)
    (fd1 fd2 : Slot) (addrLen : Nat) (addr : SockAddr) (w : World) (L C : Nat)
    (hwin : cfg.win32 = true)
    (h0 : (w.answer 0).handle = L) (h2 : (w.answer 2).status = 0)
    (h3 : (w.answer 3).status = 0) (h4 : (w.answer 4).status = 0)
    (h5 : (w.answer 5).handle = C) (h6 : (w.answer 6).status ≠ 0) :
    newEvents w (simulateSocketPair cfg domain type fd1 fd2 addrLen addr w) =
      [.socket domain type 0 L,
       .fixupSocketAddress L addr,
       .bind L ((w.answer 1).writeAddr addr) addrLen 0,
       .listen L 1 0,
       .getsockname L addrLen 0,
       .socket domain type 0 C,
       .ioctlsocket C 1 (-1),
       .closesocket L,
       .closesocket C,
       .throwErrnum (cfg.socket_errno (w.errAt 7)).1] := by
  obtain ⟨x0, a0, e0, h0⟩ := Reply.eq_ok_of_handle h0
  obtain ⟨p2, x2, a2, e2, h2⟩ := Reply.eq_ok_of_status h2
  obtain ⟨p3, x3, a3, e3, h3⟩ := Reply.eq_ok_of_status h3
  obtain ⟨p4, x4, a4, e4, h4⟩ := Reply.eq_ok_of_status h4
  obtain ⟨x5, a5, e5, h5⟩ := Reply.eq_ok_of_handle h5
  obtain ⟨e6, h6⟩ := Reply.eq_fail_of_status h6
  simp [simulateSocketPair, newEvents, World.errAt, *]

/-! ## Unsupported requests -/

/-- Claim C1: when `domainToNative` returns -1 the call raises the
SocketException with the message "Unsupported domain" and does nothing else,
whatever the type is; when `domainToNative` or `sockTypeToNative` returns -1 the
call makes no platform call at all, so none of `socket`, `socketpair`, `bind`,
`listen`, `connect`, `accept`, and registers no handle. -/
theorem socketPair_unsupported (cfg : Config) (domain type : Int) (fd1 fd2 : Slot) (w : World) :
    (cfg.domainToNative domain = -1 →
      newEvents w (socketPair cfg domain type fd1 fd2 w) =
        [.throwException .kExceptionSocketException "Unsupported domain"]) ∧
    (cfg.domainToNative domain = -1 ∨ (sockTypeToNative cfg type w).1 = -1 →
      syscallCount (newEvents w (socketPair cfg domain type fd1 fd2 w)) = 0 ∧
      (socketPair cfg domain type fd1 fd2 w).calls = w.calls ∧
      registered (newEvents w (socketPair cfg domain type fd1 fd2 w)) = []) := by
  constructor
  · intro hd
    simp [socketPair, newEvents, hd]
  · intro h
    by_cases hd : cfg.domainToNative domain = -1
    · simp [socketPair, newEvents, hd, syscallCount, registered, World.log, Event.isSocketCall]
    · have ht : cfg.sockTypeTable type = -1 := by
        rcases h with h | h
        · exact absurd h hd
        · by_contra hne
          simp [hne] at h
      simp [socketPair, newEvents, hd, ht, syscallCount, registered, World.log,
        Event.isSocketCall]

/-- Witness for claim C1, on the Linux build: logical domain 9 has no native
mapping (the unsupported type 9 sent with it is not reported), and neither has
logical type 9 for the supported domain 1. -/
theorem socketPair_unsupported_witness :
    newEvents (World.ofScript [] ⟨0, 0⟩)
        (socketPair linuxCfg 9 9 .slot1 .slot2 (World.ofScript [] ⟨0, 0⟩)) =
      [.throwException .kExceptionSocketException "Unsupported domain"] ∧
    (syscallCount (newEvents (World.ofScript [] ⟨0, 0⟩)
        (socketPair linuxCfg 1 9 .slot1 .slot2 (World.ofScript [] ⟨0, 0⟩))) = 0 ∧
      (socketPair linuxCfg 1 9 .slot1 .slot2 (World.ofScript [] ⟨0, 0⟩)).calls =
        (World.ofScript [] ⟨0, 0⟩).calls ∧
      registered (newEvents (World.ofScript [] ⟨0, 0⟩)
        (socketPair linuxCfg 1 9 .slot1 .slot2 (World.ofScript [] ⟨0, 0⟩))) = []) :=
  ⟨(socketPair_unsupported linuxCfg 9 9 .slot1 .slot2 (World.ofScript [] ⟨0, 0⟩)).1 (by decide),
   (socketPair_unsupported linuxCfg 1 9 .slot1 .slot2 (World.ofScript [] ⟨0, 0⟩)).2
     (Or.inr (by decide))⟩

/-! ## Successful calls -/

theorem registered_append (a b : List Event) :
    registered (a ++ b) = registered a ++ registered b := by
  induction a with
  | nil => rfl
  | cons e t ih => cases e <;> simp [registered, ih]

theorem raised_append (a b : List Event) : raised (a ++ b) = raised a ++ raised b := by
  induction a with
  | nil => rfl
  | cons e t ih => cases e <;> simp [raised, ih]

theorem newEvents_of_trace {w w' : World} {evs : List Event} (h : w'.trace = w.trace ++ evs) :
    newEvents w w' = evs := by
  simp [newEvents, h]

/-- What the calls of the native primitive leave behind: no error raised, nothing
registered, no `listen`; on failure no handle, on success the two handles of
`socket_vector`. -/
theorem native_outcome (cfg : Config) (domain type : Int) (w : World) :
    ∃ evs, (nativeAttempt cfg domain type w).2.trace = w.trace ++ evs ∧
      raised evs = [] ∧ registered evs = [] ∧
      (∀ L backlog ret, Event.listen L backlog ret ∉ evs) ∧
      (((nativeAttempt cfg domain type w).1.1 = -1 ∧ openHandles evs = []) ∨
       ((nativeAttempt cfg domain type w).1.1 ≠ -1 ∧
         openHandles evs = [(nativeAttempt cfg domain type w).1.2.1,
           (nativeAttempt cfg domain type w).1.2.2])) := by
  rcases h0 : w.answer 0 with ⟨p0, q0, a0, e0⟩ | e0 <;>
  rcases h1 : w.answer 1 with ⟨p1, q1, a1, e1⟩ | e1 <;>
  cases hc : cfg.have_socket_cloexec <;> cases hu : cfg.supportsUNIX <;>
  cases hf : cfg.have_FD_CLOEXEC <;>
  simp [nativeAttempt, raised, registered, openHandles, trackHandles, Event.opened, *] <;>
  split_ifs <;>
  simp [nativeAttempt, raised, registered, openHandles, trackHandles, Event.opened, *]

/-- The shape of a successful emulation: everything before the two
registrations registers nothing, raises nothing, closes the listener, and leaves
exactly the connector and the accepted handle open. -/
theorem emulationTrace_shape (cfg : Config) (domain type : Int) (fd1 fd2 : Slot) (addrLen : Nat)
    (given bound resolved : SockAddr) (L C A : Nat) (cr : Int) :
    ∃ pre, emulationTrace cfg domain type fd1 fd2 addrLen given bound resolved L C A cr
        = pre ++ [.initFD fd1 A, .initFD fd2 C] ∧
      registered pre = [] ∧ openHandles pre = [(C : Int), (A : Int)] ∧
      (∀ L1 backlog ret, Event.listen L1 backlog ret ∈ pre → Event.closesocket L1 ∈ pre) := by
  cases hwin : cfg.win32
  · refine ⟨[.socket domain type 0 L, .fixupSocketAddress L given, .bind L bound addrLen 0,
      .listen L 1 0, .getsockname L addrLen 0, .socket domain type 0 C,
      .connect C resolved addrLen cr, .accept L addrLen A, .closesocket L], ?_, ?_, ?_, ?_⟩
    · simp [emulationTrace, hwin]
    · simp [registered]
    · simp [openHandles, trackHandles, Event.opened]
    · intro L1 backlog ret h
      simp at h
      simp [h.1]
  · refine ⟨[.socket domain type 0 L, .fixupSocketAddress L given, .bind L bound addrLen 0,
      .listen L 1 0, .getsockname L addrLen 0, .socket domain type 0 C, .ioctlsocket C 1 0,
      .connect C resolved addrLen cr, .accept L addrLen A, .closesocket L,
      .ioctlsocket C 0 0], ?_, ?_, ?_, ?_⟩
    · simp [emulationTrace, hwin]
    · simp [registered]
    · simp [openHandles, trackHandles, Event.opened]
    · intro L1 backlog ret h
      simp at h
      simp [h.1]

theorem openHandles_append (a b : List Event) :
    openHandles (a ++ b) = b.foldl trackHandles (openHandles a) := by
  simp [openHandles, List.foldl_append]

theorem openHandles_append_of_nil {a : List Event} (h : openHandles a = []) (b : List Event) :
    openHandles (a ++ b) = openHandles b := by
  rw [openHandles_append, h]
  rfl

theorem openHandles_initFD (pre : List Event) (fd1 fd2 : Slot) (h1 h2 : Int) :
    openHandles (pre ++ [.initFD fd1 h1, .initFD fd2 h2]) = openHandles pre := by
  simp [openHandles_append, trackHandles, Event.opened]

/-- The conclusion of claim C3 for a run made of calls that leave nothing
behind, followed by a successful emulation. -/
theorem two_endpoints_of_emulation (cfg : Config) (domain type : Int) (fd1 fd2 : Slot)
    (addrLen : Nat) (given bound resolved : SockAddr) (L C A : Nat) (cr : Int)
    (nevs : List Event) (hreg : registered nevs = []) (hopen : openHandles nevs = [])
    (hl : ∀ L1 backlog ret, Event.listen L1 backlog ret ∉ nevs) :
    ∃ h1 h2 pre,
      nevs ++ emulationTrace cfg domain type fd1 fd2 addrLen given bound resolved L C A cr =
        pre ++ [.initFD fd1 h1, .initFD fd2 h2] ∧
      registered (nevs ++ emulationTrace cfg domain type fd1 fd2 addrLen given bound resolved
        L C A cr) = [(fd1, h1), (fd2, h2)] ∧
      registered pre = [] ∧
      (openHandles pre).Perm [h1, h2] ∧
      openHandles (nevs ++ emulationTrace cfg domain type fd1 fd2 addrLen given bound resolved
        L C A cr) = openHandles pre ∧
      (∀ L1 backlog ret, Event.listen L1 backlog ret ∈ pre → Event.closesocket L1 ∈ pre) := by
  obtain ⟨pre, hpre, hpreg, hpopen, hplisten⟩ :=
    emulationTrace_shape cfg domain type fd1 fd2 addrLen given bound resolved L C A cr
  refine ⟨A, C, nevs ++ pre, ?_, ?_, ?_, ?_, ?_, ?_⟩
  · rw [hpre, List.append_assoc]
  · rw [hpre, registered_append, registered_append, hreg, hpreg]
    simp [registered]
  · rw [registered_append, hreg, hpreg]
    rfl
  · rw [openHandles_append_of_nil hopen, hpopen]
    exact List.Perm.swap _ _ _
  · rw [hpre, ← List.append_assoc, openHandles_initFD]
  · intro L1 backlog ret h
    rcases List.mem_append.1 h with h | h
    · exact absurd h (hl L1 backlog ret)
    · exact List.mem_append.2 (Or.inr (hplisten L1 backlog ret h))

/-- Claim C3: a call of `socketPair` that raises no error registers exactly two
handles, the first in `fd1` and the second in `fd2`, as its last two actions;
at that point the handles the call created and has not closed are exactly those
two, and every handle the call listened on has been closed. -/
theorem socketPair_success_two_endpoints (cfg : Config) (domain type : Int) (fd1 fd2 : Slot)
    (w : World) (hs : raised (newEvents w (socketPair cfg domain type fd1 fd2 w)) = []) :
    ∃ h1 h2 pre,
      newEvents w (socketPair cfg domain type fd1 fd2 w) =
        pre ++ [.initFD fd1 h1, .initFD fd2 h2] ∧
      registered (newEvents w (socketPair cfg domain type fd1 fd2 w)) = [(fd1, h1), (fd2, h2)] ∧
      registered pre = [] ∧
      (openHandles pre).Perm [h1, h2] ∧
      openHandles (newEvents w (socketPair cfg domain type fd1 fd2 w)) = openHandles pre ∧
      (∀ L backlog ret, Event.listen L backlog ret ∈ pre → Event.closesocket L ∈ pre) := by
  by_cases hd : cfg.domainToNative domain = -1
  · simp [socketPair, newEvents, hd, raised] at hs
  by_cases ht : cfg.sockTypeTable type = -1
  · simp [socketPair, newEvents, hd, ht, raised] at hs
  cases hwin : cfg.win32
  · obtain ⟨nevs, hntr, hnr, hnreg, hnl, hcase⟩ :=
      native_outcome cfg (cfg.domainToNative domain) (cfg.sockTypeTable type) w
    rcases hcase with ⟨hret, hopen⟩ | ⟨hret, hopen⟩
    · by_cases hfb : (cfg.socket_errno
          (nativeAttempt cfg (cfg.domainToNative domain) (cfg.sockTypeTable type) w).2.err).1
            = cfg.EOPNOTSUPP ∧ cfg.have_vsock = true ∧ cfg.domainToNative domain = cfg.AF_VSOCK
      · obtain ⟨evs, htr, -, hcase⟩ := simulateSocketPair_outcome cfg (cfg.domainToNative domain)
          (cfg.sockTypeTable type) fd1 fd2 cfg.sizeof_sockaddr_vm (vsockAddr cfg)
          ((nativeAttempt cfg (cfg.domainToNative domain) (cfg.sockTypeTable type) w).2.setErr
            (cfg.socket_errno
              (nativeAttempt cfg (cfg.domainToNative domain)
                (cfg.sockTypeTable type) w).2.err).2)
        have hrun : newEvents w (socketPair cfg domain type fd1 fd2 w) = nevs ++ evs := by
          apply newEvents_of_trace
          obtain ⟨hE, hv, hD⟩ := hfb
          simp [socketPair, hd, ht, hwin, hret, hE, hv, ← hD, htr, hntr]
        rw [hrun] at hs ⊢
        rcases hcase with ⟨hr, -⟩ | ⟨L, C, A, cr, bound, resolved, hev⟩
        · rw [raised_append, hnr] at hs
          exact absurd hs hr
        · rw [hev]
          exact two_endpoints_of_emulation cfg _ _ fd1 fd2 _ _ bound resolved L C A cr nevs
            hnreg hopen hnl
      · have hrun : newEvents w (socketPair cfg domain type fd1 fd2 w) =
            nevs ++ [.throwErrnum (cfg.socket_errno
              (nativeAttempt cfg (cfg.domainToNative domain)
                (cfg.sockTypeTable type) w).2.err).1] := by
          apply newEvents_of_trace
          simp [socketPair, hd, ht, hwin, hret, hfb, hntr]
        rw [hrun, raised_append] at hs
        simp [raised] at hs
    · have hrun : newEvents w (socketPair cfg domain type fd1 fd2 w) =
          nevs ++ [.initFD fd1
              (nativeAttempt cfg (cfg.domainToNative domain) (cfg.sockTypeTable type) w).1.2.1,
            .initFD fd2
              (nativeAttempt cfg (cfg.domainToNative domain) (cfg.sockTypeTable type) w).1.2.2] := by
        apply newEvents_of_trace
        simp [socketPair, hd, ht, hwin, hret, hntr]
      rw [hrun]
      refine ⟨_, _, nevs, rfl, ?_, hnreg, ?_, openHandles_initFD _ _ _ _ _, ?_⟩
      · rw [registered_append, hnreg]
        rfl
      · rw [hopen]
      · intro L backlog ret h
        exact absurd h (hnl L backlog ret)
  · obtain ⟨evs, htr, -, hcase⟩ := simulateSocketPair_outcome cfg cfg.AF_INET (cfg.sockTypeTable type) fd1 fd2
      cfg.sizeof_sockaddr_in (loopbackAddr cfg) w
    have hrun : newEvents w (socketPair cfg domain type fd1 fd2 w) = evs := by
      apply newEvents_of_trace
      simp [socketPair, hd, ht, hwin, htr]
    rw [hrun] at hs ⊢
    rcases hcase with ⟨hr, -⟩ | ⟨L, C, A, cr, bound, resolved, hev⟩
    · exact absurd hs hr
    · have h := two_endpoints_of_emulation cfg cfg.AF_INET (cfg.sockTypeTable type) fd1 fd2
        cfg.sizeof_sockaddr_in (loopbackAddr cfg) bound resolved L C A cr [] rfl rfl
        (fun _ _ _ h => by simp at h)
      rw [hev]
      simpa using h

/-- Witness for claim C3, on the Linux build: the native primitive succeeds at
once with handles 7 and 8. -/
theorem socketPair_success_two_endpoints_witness :
    raised (newEvents (World.ofScript [.ok 7 8 none none] ⟨0, 0⟩)
      (socketPair linuxCfg 1 1 .slot1 .slot2 (World.ofScript [.ok 7 8 none none] ⟨0, 0⟩))) = [] ∧
    ∃ h1 h2 pre,
      newEvents (World.ofScript [.ok 7 8 none none] ⟨0, 0⟩)
        (socketPair linuxCfg 1 1 .slot1 .slot2 (World.ofScript [.ok 7 8 none none] ⟨0, 0⟩)) =
        pre ++ [.initFD .slot1 h1, .initFD .slot2 h2] ∧
      registered (newEvents (World.ofScript [.ok 7 8 none none] ⟨0, 0⟩)
        (socketPair linuxCfg 1 1 .slot1 .slot2 (World.ofScript [.ok 7 8 none none] ⟨0, 0⟩))) =
        [(.slot1, h1), (.slot2, h2)] ∧
      registered pre = [] ∧
      (openHandles pre).Perm [h1, h2] ∧
      openHandles (newEvents (World.ofScript [.ok 7 8 none none] ⟨0, 0⟩)
        (socketPair linuxCfg 1 1 .slot1 .slot2 (World.ofScript [.ok 7 8 none none] ⟨0, 0⟩))) =
        openHandles pre ∧
      (∀ L backlog ret, Event.listen L backlog ret ∈ pre → Event.closesocket L ∈ pre) :=
  ⟨by decide,
   socketPair_success_two_endpoints linuxCfg 1 1 .slot1 .slot2
     (World.ofScript [.ok 7 8 none none] ⟨0, 0⟩) (by decide)⟩

/-! ## Failures of the native primitive -/

/-- Claim C4: on a platform with a native pair primitive (where `socket_errno`
is `errno`), let the first call of the primitive fail with error code `e`.
If `e` is EPROTONOSUPPORT and atomic close-on-exec was requested, the primitive
is called again; otherwise, if `e` is EOPNOTSUPP and the domain is AF_VSOCK, the
emulator runs; in every other case the call raises exactly `e` right after the
failed call, makes no further call and registers nothing.  The same holds for
the retry, which does not request close-on-exec: unless its code is EOPNOTSUPP on
AF_VSOCK, that code is raised at once. -/
theorem socketPair_native_failure (cfg : Config) (domain type : Int) (fd1 fd2 : Slot)
    (w : World) (e0 : Option ErrVars)
    (hwin : cfg.win32 = false)
    (hse : ∀ ev, cfg.socket_errno ev = (ev.errno, ev))
    (hd : cfg.domainToNative domain ≠ -1) (ht : cfg.sockTypeTable type ≠ -1)
    (h0 : w.answer 0 = .fail e0) :
    (¬ (cfg.have_socket_cloexec = true ∧ cfg.supportsUNIX = true ∧
          (w.errAt 1).errno = cfg.EPROTONOSUPPORT) →
      ¬ ((w.errAt 1).errno = cfg.EOPNOTSUPP ∧ cfg.have_vsock = true ∧
          cfg.domainToNative domain = cfg.AF_VSOCK) →
      newEvents w (socketPair cfg domain type fd1 fd2 w) =
        [.socketpair (cfg.domainToNative domain) (cfg.sockTypeTable type)
            (if cfg.have_socket_cloexec = true ∧ cfg.supportsUNIX = true
              then cfg.SOCK_CLOEXEC else 0) (-1) none,
         .throwErrnum (w.errAt 1).errno]) ∧
    (cfg.have_socket_cloexec = true ∧ cfg.supportsUNIX = true ∧
          (w.errAt 1).errno = cfg.EPROTONOSUPPORT →
      ∃ ret sv rest, newEvents w (socketPair cfg domain type fd1 fd2 w) =
        .socketpair (cfg.domainToNative domain) (cfg.sockTypeTable type) cfg.SOCK_CLOEXEC (-1) none
          :: .socketpair (cfg.domainToNative domain) (cfg.sockTypeTable type) 0 ret sv
          :: rest) ∧
    (¬ (cfg.have_socket_cloexec = true ∧ cfg.supportsUNIX = true ∧
          (w.errAt 1).errno = cfg.EPROTONOSUPPORT) →
      (w.errAt 1).errno = cfg.EOPNOTSUPP ∧ cfg.have_vsock = true ∧
          cfg.domainToNative domain = cfg.AF_VSOCK →
      socketPair cfg domain type fd1 fd2 w =
        simulateSocketPair cfg (cfg.domainToNative domain) (cfg.sockTypeTable type) fd1 fd2
          cfg.sizeof_sockaddr_vm (vsockAddr cfg)
          (socketpair (cfg.domainToNative domain) (cfg.sockTypeTable type)
            (if cfg.have_socket_cloexec = true ∧ cfg.supportsUNIX = true
              then cfg.SOCK_CLOEXEC else 0) (0, 0) w).2) ∧
    (∀ e1 : Option ErrVars, w.answer 1 = .fail e1 →
      cfg.have_socket_cloexec = true ∧ cfg.supportsUNIX = true ∧
          (w.errAt 1).errno = cfg.EPROTONOSUPPORT →
      ¬ ((w.errAt 2).errno = cfg.EOPNOTSUPP ∧ cfg.have_vsock = true ∧
          cfg.domainToNative domain = cfg.AF_VSOCK) →
      newEvents w (socketPair cfg domain type fd1 fd2 w) =
        [.socketpair (cfg.domainToNative domain) (cfg.sockTypeTable type) cfg.SOCK_CLOEXEC
            (-1) none,
         .socketpair (cfg.domainToNative domain) (cfg.sockTypeTable type) 0 (-1) none,
         .throwErrnum (w.errAt 2).errno]) := by
  have herr : w.errAt 1 = e0.getD w.err := by simp [World.errAt, h0]
  have herr2 : ∀ e1 : Option ErrVars, w.answer 1 = .fail e1 →
      w.errAt 2 = e1.getD (e0.getD w.err) := by
    intro e1 h1
    simp [World.errAt, h0, h1]
  rw [herr]
  refine ⟨?_, ?_, ?_, ?_⟩
  · intro hp ho
    apply newEvents_of_trace
    cases hc : cfg.have_socket_cloexec <;> cases hu : cfg.supportsUNIX <;>
      simp only [hc, hu, true_and, false_and, and_false, not_false_eq_true, Bool.false_eq_true]
        at hp <;>
      simp [socketPair, nativeAttempt, hwin, hse, hd, ht, h0, hc, hu, hp, ho]
  · rintro ⟨hc, hu, hp⟩
    rcases h1 : w.answer 1 with ⟨p1, q1, a1, e1⟩ | e1
    · cases hf : cfg.have_FD_CLOEXEC
      · refine ⟨0, some ((p1 : Int), (q1 : Int)), [.initFD fd1 p1, .initFD fd2 q1], ?_⟩
        apply newEvents_of_trace
        simp [socketPair, nativeAttempt, hwin, hse, hd, ht, h0, h1, hc, hu, hp, hf]
      · refine ⟨0, some ((p1 : Int), (q1 : Int)),
          [.fcntl p1, .fcntl q1, .initFD fd1 p1, .initFD fd2 q1], ?_⟩
        apply newEvents_of_trace
        simp [socketPair, nativeAttempt, hwin, hse, hd, ht, h0, h1, hc, hu, hp, hf]
    · by_cases hfb : ((e1.getD (e0.getD w.err)).errno = cfg.EOPNOTSUPP ∧ cfg.have_vsock = true ∧
          cfg.domainToNative domain = cfg.AF_VSOCK)
      · obtain ⟨evs, htr, -⟩ := simulateSocketPair_outcome cfg (cfg.domainToNative domain)
          (cfg.sockTypeTable type) fd1 fd2 cfg.sizeof_sockaddr_vm (vsockAddr cfg)
          ((((w.advance.log (.socketpair (cfg.domainToNative domain) (cfg.sockTypeTable type)
              cfg.SOCK_CLOEXEC (-1) none)).advance.log
            (.socketpair (cfg.domainToNative domain) (cfg.sockTypeTable type) 0 (-1) none))).setErr
            (e1.getD (e0.getD w.err)))
        refine ⟨-1, none, evs, ?_⟩
        apply newEvents_of_trace
        obtain ⟨hE, hv, hD⟩ := hfb
        simp [socketPair, nativeAttempt, hwin, hse, hd, ht, h0, h1, hc, hu, hp, hE, hv, ← hD, htr]
      · refine ⟨-1, none, [.throwErrnum (e1.getD (e0.getD w.err)).errno], ?_⟩
        apply newEvents_of_trace
        simp [socketPair, nativeAttempt, hwin, hse, hd, ht, h0, h1, hc, hu, hp, hfb]
  · intro hp ho
    obtain ⟨hE, hv, hD⟩ := ho
    have hx : ∀ e, (w.advance.log e).setErr (e0.getD w.err) = w.advance.log e := by
      intro e
      have h : e0.getD w.err = (w.advance.log e).err := by simp [h0]
      rw [h]
      rfl
    by_cases hreq : cfg.have_socket_cloexec = true ∧ cfg.supportsUNIX = true
    · have hp1 : ¬ cfg.EOPNOTSUPP = cfg.EPROTONOSUPPORT := by
        rw [← hE]
        tauto
      simp [socketPair, nativeAttempt, hwin, hse, hd, ht, h0, hreq.1, hreq.2, hp1, hE, hv,
        ← hD, hx]
    · cases hc : cfg.have_socket_cloexec <;> cases hu : cfg.supportsUNIX <;>
        simp [hc, hu] at hreq <;>
        simp [socketPair, nativeAttempt, hwin, hse, hd, ht, h0, hc, hu, hE, hv, ← hD, hx]
  · rintro e1 h1 ⟨hc, hu, hp⟩ ho
    rw [herr2 e1 h1] at ho ⊢
    apply newEvents_of_trace
    simp [socketPair, nativeAttempt, hwin, hse, hd, ht, h0, h1, hc, hu, hp, ho]

/-- Witness for claim C4, on the Linux build: the first call of the native
primitive fails with EACCES (13), which is raised at once. -/
theorem socketPair_native_failure_witness :
    newEvents (World.ofScript [.fail (some ⟨13, 0⟩)] ⟨0, 0⟩)
        (socketPair linuxCfg 1 1 .slot1 .slot2 (World.ofScript [.fail (some ⟨13, 0⟩)] ⟨0, 0⟩)) =
      [.socketpair 1 1 524288 (-1) none, .throwErrnum 13] :=
  (socketPair_native_failure linuxCfg 1 1 .slot1 .slot2
    (World.ofScript [.fail (some ⟨13, 0⟩)] ⟨0, 0⟩) (some ⟨13, 0⟩) rfl (fun _ => rfl)
    (by decide) (by decide) rfl).1 (by decide) (by decide)

/-! ## The retry without close-on-exec -/

/-- Claim C5 as stated fails: on a build whose headers do not define
`FD_CLOEXEC`, the retry without SOCK_CLOEXEC succeeds with handles 7 and 8 and
both are registered, but no set-close-on-exec call is attempted on either. -/
theorem socketPair_cloexec_retry_without_fcntl :
    (socketPair noFdCloexecCfg 1 1 .slot1 .slot2
        (World.ofScript [.fail (some ⟨93, 0⟩), .ok 7 8 none none] ⟨0, 0⟩)).trace =
      [.socketpair 1 1 524288 (-1) none,
       .socketpair 1 1 0 0 (some (7, 8)),
       .initFD .slot1 7,
       .initFD .slot2 8] ∧
    Event.fcntl 7 ∉ (socketPair noFdCloexecCfg 1 1 .slot1 .slot2
        (World.ofScript [.fail (some ⟨93, 0⟩), .ok 7 8 none none] ⟨0, 0⟩)).trace ∧
    Event.fcntl 8 ∉ (socketPair noFdCloexecCfg 1 1 .slot1 .slot2
        (World.ofScript [.fail (some ⟨93, 0⟩), .ok 7 8 none none] ⟨0, 0⟩)).trace := by
  decide

/-- Claim C5, amended: when the native primitive is called with SOCK_CLOEXEC
and fails with `errno` equal to EPROTONOSUPPORT, it is called exactly once more,
with 0 in place of SOCK_CLOEXEC.  If that retry succeeds with handles `h1` and
`h2`, then, where `FD_CLOEXEC` is defined, `fcntl` is called on `h1` and then on
`h2`, and where it is not, no such call is made; whatever the answers to those
calls, the run ends by registering `h1` in `fd1` and `h2` in `fd2`, and raises
nothing. -/
theorem socketPair_cloexec_retry (cfg : Config) (domain type : Int) (fd1 fd2 : Slot)
    (w : World) (e0 : Option ErrVars)
    (hwin : cfg.win32 = false)
    (hc : cfg.have_socket_cloexec = true) (hu : cfg.supportsUNIX = true)
    (hd : cfg.domainToNative domain ≠ -1) (ht : cfg.sockTypeTable type ≠ -1)
    (h0 : w.answer 0 = .fail e0)
    (hp : (w.errAt 1).errno = cfg.EPROTONOSUPPORT) :
    (∃ ret sv rest, newEvents w (socketPair cfg domain type fd1 fd2 w) =
        .socketpair (cfg.domainToNative domain) (cfg.sockTypeTable type) cfg.SOCK_CLOEXEC (-1) none
          :: .socketpair (cfg.domainToNative domain) (cfg.sockTypeTable type) 0 ret sv
          :: rest ∧
        nativeCalls rest = 0) ∧
    (∀ (h1 h2 : Nat) (a1 : Option SockAddr) (e1 : Option ErrVars),
      w.answer 1 = .ok h1 h2 a1 e1 →
      newEvents w (socketPair cfg domain type fd1 fd2 w) =
        [.socketpair (cfg.domainToNative domain) (cfg.sockTypeTable type) cfg.SOCK_CLOEXEC (-1) none,
         .socketpair (cfg.domainToNative domain) (cfg.sockTypeTable type) 0 0
           (some ((h1 : Int), (h2 : Int)))]
        ++ (if cfg.have_FD_CLOEXEC then [.fcntl h1, .fcntl h2] else [])
        ++ [.initFD fd1 h1, .initFD fd2 h2]) := by
  have herr : w.errAt 1 = e0.getD w.err := by simp [World.errAt, h0]
  rw [herr] at hp
  constructor
  · rcases h1 : w.answer 1 with ⟨p1, q1, a1, e1⟩ | e1
    · cases hf : cfg.have_FD_CLOEXEC
      · refine ⟨0, some ((p1 : Int), (q1 : Int)), [.initFD fd1 p1, .initFD fd2 q1], ?_, ?_⟩
        · apply newEvents_of_trace
          simp [socketPair, nativeAttempt, hwin, hd, ht, h0, h1, hc, hu, hp, hf]
        · simp [nativeCalls]
      · refine ⟨0, some ((p1 : Int), (q1 : Int)),
          [.fcntl p1, .fcntl q1, .initFD fd1 p1, .initFD fd2 q1], ?_, ?_⟩
        · apply newEvents_of_trace
          simp [socketPair, nativeAttempt, hwin, hd, ht, h0, h1, hc, hu, hp, hf]
        · simp [nativeCalls]
    · by_cases hfb : ((cfg.socket_errno (e1.getD (e0.getD w.err))).1 = cfg.EOPNOTSUPP ∧
          cfg.have_vsock = true ∧ cfg.domainToNative domain = cfg.AF_VSOCK)
      · obtain ⟨evs, htr, hn, -⟩ := simulateSocketPair_outcome cfg (cfg.domainToNative domain)
          (cfg.sockTypeTable type) fd1 fd2 cfg.sizeof_sockaddr_vm (vsockAddr cfg)
          ((((w.advance.log (.socketpair (cfg.domainToNative domain) (cfg.sockTypeTable type)
              cfg.SOCK_CLOEXEC (-1) none)).advance.log
            (.socketpair (cfg.domainToNative domain) (cfg.sockTypeTable type) 0 (-1) none))).setErr
            (cfg.socket_errno (e1.getD (e0.getD w.err))).2)
        refine ⟨-1, none, evs, ?_, hn⟩
        apply newEvents_of_trace
        obtain ⟨hE, hv, hD⟩ := hfb
        simp [socketPair, nativeAttempt, hwin, hd, ht, h0, h1, hc, hu, hp, hE, hv, ← hD, htr]
      · refine ⟨-1, none, [.throwErrnum (cfg.socket_errno (e1.getD (e0.getD w.err))).1], ?_, ?_⟩
        · apply newEvents_of_trace
          simp [socketPair, nativeAttempt, hwin, hd, ht, h0, h1, hc, hu, hp, hfb]
        · simp [nativeCalls]
  · intro h1 h2 a1 e1 h1r
    apply newEvents_of_trace
    cases hf : cfg.have_FD_CLOEXEC <;>
      simp [socketPair, nativeAttempt, hwin, hd, ht, h0, h1r, hc, hu, hp, hf]

/-- Witness for claim C5 (amended), on the Linux build: the call with
SOCK_CLOEXEC fails with EPROTONOSUPPORT (93), the retry yields handles 7 and 8,
both `fcntl` calls fail, and the two handles are registered all the same. -/
theorem socketPair_cloexec_retry_witness :
    newEvents (World.ofScript [.fail (some ⟨93, 0⟩), .ok 7 8 none none,
          .fail (some ⟨9, 0⟩), .fail (some ⟨9, 0⟩)] ⟨0, 0⟩)
        (socketPair linuxCfg 1 1 .slot1 .slot2
          (World.ofScript [.fail (some ⟨93, 0⟩), .ok 7 8 none none,
            .fail (some ⟨9, 0⟩), .fail (some ⟨9, 0⟩)] ⟨0, 0⟩)) =
      [.socketpair 1 1 524288 (-1) none,
       .socketpair 1 1 0 0 (some (7, 8)),
       .fcntl 7,
       .fcntl 8,
       .initFD .slot1 7,
       .initFD .slot2 8] :=
  (socketPair_cloexec_retry linuxCfg 1 1 .slot1 .slot2
    (World.ofScript [.fail (some ⟨93, 0⟩), .ok 7 8 none none,
      .fail (some ⟨9, 0⟩), .fail (some ⟨9, 0⟩)] ⟨0, 0⟩) (some ⟨93, 0⟩)
    rfl rfl rfl (by decide) (by decide) rfl rfl).2 7 8 none none rfl

/-- The native attempt starts with a call of the native primitive. -/
theorem native_first_event (cfg : Config) (domain type : Int) (w : World) :
    ∃ protocol ret sv rest, (nativeAttempt cfg domain type w).2.trace =
      w.trace ++ Event.socketpair domain type protocol ret sv :: rest := by
  rcases h0 : w.answer 0 with ⟨p0, q0, a0, e0⟩ | e0 <;>
  rcases h1 : w.answer 1 with ⟨p1, q1, a1, e1⟩ | e1 <;>
  cases hc : cfg.have_socket_cloexec <;> cases hu : cfg.supportsUNIX <;>
  cases hf : cfg.have_FD_CLOEXEC <;>
  simp [nativeAttempt, *] <;>
  split_ifs <;>
  simp [nativeAttempt, *]

/-- The native attempt makes no call of the emulation protocol. -/
theorem native_no_emulation (cfg : Config) (domain type : Int) (w : World) :
    emulationCalls (newEvents w (nativeAttempt cfg domain type w).2) = 0 := by
  rcases h0 : w.answer 0 with ⟨p0, q0, a0, e0⟩ | e0 <;>
  rcases h1 : w.answer 1 with ⟨p1, q1, a1, e1⟩ | e1 <;>
  cases hc : cfg.have_socket_cloexec <;> cases hu : cfg.supportsUNIX <;>
  cases hf : cfg.have_FD_CLOEXEC <;>
  simp [nativeAttempt, newEvents, emulationCalls, Event.isEmulationCall, *] <;>
  split_ifs <;>
  simp [nativeAttempt, newEvents, emulationCalls, Event.isEmulationCall, *]

/-! ## The platform branch -/

/-- Claim C6 as stated fails: on the Linux build a validated request for the
virtual-socket family does not go straight to emulation.  The native primitive
is called twice (failing with EPROTONOSUPPORT, then with EOPNOTSUPP) before the
emulator creates its first socket. -/
theorem socketPair_vsock_calls_native_first :
    linuxCfg.domainToNative 40 = linuxCfg.AF_VSOCK ∧
    (socketPair linuxCfg 40 1 .slot1 .slot2
        (World.ofScript [.fail (some ⟨93, 0⟩), .fail (some ⟨95, 0⟩), .ok 3 0 none none,
          .ok 0 0 none none, .ok 0 0 none none, .ok 0 0 none none,
          .ok 0 0 (some (.written 7)) none, .ok 4 0 none none, .ok 0 0 none none,
          .ok 5 0 none none, .ok 0 0 none none] ⟨0, 0⟩)).trace =
      [.socketpair 40 1 524288 (-1) none,
       .socketpair 40 1 0 (-1) none,
       .socket 40 1 0 3,
       .fixupSocketAddress 3 (.sockaddr_vm none 40 4294967295 1),
       .bind 3 (.sockaddr_vm none 40 4294967295 1) 16 0,
       .listen 3 1 0,
       .getsockname 3 16 0,
       .socket 40 1 0 4,
       .connect 4 (.written 7) 16 0,
       .accept 3 16 5,
       .closesocket 3,
       .initFD .slot1 5,
       .initFD .slot2 4] ∧
    nativeCalls (socketPair linuxCfg 40 1 .slot1 .slot2
        (World.ofScript [.fail (some ⟨93, 0⟩), .fail (some ⟨95, 0⟩), .ok 3 0 none none,
          .ok 0 0 none none, .ok 0 0 none none, .ok 0 0 none none,
          .ok 0 0 (some (.written 7)) none, .ok 4 0 none none, .ok 0 0 none none,
          .ok 5 0 none none, .ok 0 0 none none] ⟨0, 0⟩)).trace = 2 := by
  decide

/-- Claim C6, amended: for a validated request on a platform without native
pair primitive (`_WIN32`), the call is exactly a run of `simulateSocketPair`
with family AF_INET, the translated type, and the address with family AF_INET,
host `htonl(0x7F000001)` (the bytes 127, 0, 0, 1 in memory), port 0 and length
`sizeof(struct sockaddr_in)`, whatever the requested family, and the native
primitive is never called.  On a platform with a native pair primitive the
first thing a validated request does, for every family, is to call the native
primitive.  If the native attempt ends in failure with `socket_errno` equal to
EOPNOTSUPP, on a build with virtual sockets and for the domain AF_VSOCK, the
rest of the call is exactly a run of `simulateSocketPair` with the
virtual-socket address.  In every other case no call of the emulation protocol
is made: after the native attempt the call only raises the error code (when the
attempt failed) or registers the two handles of `socket_vector`. -/
theorem socketPair_platform_branch (cfg : Config) (domain type : Int) (fd1 fd2 : Slot)
    (w : World)
    (hd : cfg.domainToNative domain ≠ -1) (ht : cfg.sockTypeTable type ≠ -1) :
    (cfg.win32 = true →
      socketPair cfg domain type fd1 fd2 w =
        simulateSocketPair cfg cfg.AF_INET (cfg.sockTypeTable type) fd1 fd2
          cfg.sizeof_sockaddr_in (.sockaddr_in cfg.AF_INET (htonl cfg 0x7F000001) 0) w ∧
      memoryBytes cfg (htonl cfg 0x7F000001) = [127, 0, 0, 1] ∧
      nativeCalls (newEvents w (socketPair cfg domain type fd1 fd2 w)) = 0) ∧
    (cfg.win32 = false →
      (∃ protocol ret sv rest, newEvents w (socketPair cfg domain type fd1 fd2 w) =
        .socketpair (cfg.domainToNative domain) (cfg.sockTypeTable type) protocol ret sv
          :: rest) ∧
      ((nativeAttempt cfg (cfg.domainToNative domain) (cfg.sockTypeTable type) w).1.1 = -1 ∧
        (readSocketErrno cfg (nativeAttempt cfg (cfg.domainToNative domain) (cfg.sockTypeTable type) w).2).1
          = cfg.EOPNOTSUPP ∧
        cfg.have_vsock = true ∧ cfg.domainToNative domain = cfg.AF_VSOCK →
        socketPair cfg domain type fd1 fd2 w =
          simulateSocketPair cfg (cfg.domainToNative domain) (cfg.sockTypeTable type) fd1 fd2
            cfg.sizeof_sockaddr_vm
            (.sockaddr_vm (if cfg.have_sun_len then some cfg.sizeof_sockaddr_vm else none)
              cfg.AF_VSOCK cfg.VMADDR_PORT_ANY
              (if cfg.have_VMADDR_CID_LOCAL then cfg.VMADDR_CID_LOCAL
                else cfg.VMADDR_CID_RESERVED))
            (readSocketErrno cfg (nativeAttempt cfg (cfg.domainToNative domain) (cfg.sockTypeTable type) w).2).2) ∧
      (¬ ((nativeAttempt cfg (cfg.domainToNative domain) (cfg.sockTypeTable type) w).1.1 = -1 ∧
        (readSocketErrno cfg (nativeAttempt cfg (cfg.domainToNative domain) (cfg.sockTypeTable type) w).2).1
          = cfg.EOPNOTSUPP ∧
        cfg.have_vsock = true ∧ cfg.domainToNative domain = cfg.AF_VSOCK) →
        emulationCalls (newEvents w (socketPair cfg domain type fd1 fd2 w)) = 0 ∧
        newEvents w (socketPair cfg domain type fd1 fd2 w) =
          newEvents w (nativeAttempt cfg (cfg.domainToNative domain) (cfg.sockTypeTable type) w).2 ++
            (if (nativeAttempt cfg (cfg.domainToNative domain) (cfg.sockTypeTable type) w).1.1 = -1
              then [.throwErrnum (readSocketErrno cfg (nativeAttempt cfg (cfg.domainToNative domain) (cfg.sockTypeTable type) w).2).1]
              else [.initFD fd1 (nativeAttempt cfg (cfg.domainToNative domain) (cfg.sockTypeTable type) w).1.2.1,
                    .initFD fd2 (nativeAttempt cfg (cfg.domainToNative domain) (cfg.sockTypeTable type) w).1.2.2]))) := by
  constructor
  · intro hwin
    have hrun : socketPair cfg domain type fd1 fd2 w =
        simulateSocketPair cfg cfg.AF_INET (cfg.sockTypeTable type) fd1 fd2
          cfg.sizeof_sockaddr_in (.sockaddr_in cfg.AF_INET (htonl cfg 0x7F000001) 0) w := by
      simp [socketPair, hd, ht, hwin, loopbackAddr]
    refine ⟨hrun, ?_, ?_⟩
    · cases hl : cfg.littleEndian <;> simp [memoryBytes, htonl, byteswap32, hl]
    · obtain ⟨evs, htr, hn, -⟩ := simulateSocketPair_outcome cfg cfg.AF_INET
        (cfg.sockTypeTable type) fd1 fd2
        cfg.sizeof_sockaddr_in (.sockaddr_in cfg.AF_INET (htonl cfg 0x7F000001) 0) w
      rw [hrun, newEvents_of_trace htr]
      exact hn
  · intro hwin
    obtain ⟨protocol, ret, sv, rest, hn⟩ :=
      native_first_event cfg (cfg.domainToNative domain) (cfg.sockTypeTable type) w
    have hnative : newEvents w (nativeAttempt cfg (cfg.domainToNative domain) (cfg.sockTypeTable type) w).2 =
        .socketpair (cfg.domainToNative domain) (cfg.sockTypeTable type) protocol ret sv
          :: rest := newEvents_of_trace hn
    refine ⟨?_, ?_, ?_⟩
    · by_cases hret : (nativeAttempt cfg (cfg.domainToNative domain) (cfg.sockTypeTable type) w).1.1 = -1
      · by_cases hfb : (cfg.socket_errno (nativeAttempt cfg (cfg.domainToNative domain) (cfg.sockTypeTable type) w).2.err).1
              = cfg.EOPNOTSUPP ∧ cfg.have_vsock = true ∧
              cfg.domainToNative domain = cfg.AF_VSOCK
        · obtain ⟨evs, htr, -⟩ := simulateSocketPair_outcome cfg (cfg.domainToNative domain)
            (cfg.sockTypeTable type) fd1 fd2 cfg.sizeof_sockaddr_vm (vsockAddr cfg)
            ((nativeAttempt cfg (cfg.domainToNative domain) (cfg.sockTypeTable type) w).2.setErr (cfg.socket_errno (nativeAttempt cfg (cfg.domainToNative domain) (cfg.sockTypeTable type) w).2.err).2)
          refine ⟨protocol, ret, sv, rest ++ evs, ?_⟩
          apply newEvents_of_trace
          obtain ⟨hE, hv, hD⟩ := hfb
          simp [socketPair, hd, ht, hwin, hret, hE, hv, ← hD, htr, hn]
        · refine ⟨protocol, ret, sv, rest ++ [.throwErrnum (cfg.socket_errno (nativeAttempt cfg (cfg.domainToNative domain) (cfg.sockTypeTable type) w).2.err).1], ?_⟩
          apply newEvents_of_trace
          simp [socketPair, hd, ht, hwin, hret, hfb, hn]
      · refine ⟨protocol, ret, sv, rest ++ [.initFD fd1 (nativeAttempt cfg (cfg.domainToNative domain) (cfg.sockTypeTable type) w).1.2.1, .initFD fd2 (nativeAttempt cfg (cfg.domainToNative domain) (cfg.sockTypeTable type) w).1.2.2], ?_⟩
        apply newEvents_of_trace
        simp [socketPair, hd, ht, hwin, hret, hn]
    · rintro ⟨hret, hE, hv, hD⟩
      simp only [readSocketErrno] at hE
      simp [socketPair, hd, ht, hwin, hret, hE, hv, ← hD, vsockAddr]
    · intro hnot
      by_cases hret : (nativeAttempt cfg (cfg.domainToNative domain) (cfg.sockTypeTable type) w).1.1 = -1
      · have hfb : ¬ ((cfg.socket_errno (nativeAttempt cfg (cfg.domainToNative domain) (cfg.sockTypeTable type) w).2.err).1
              = cfg.EOPNOTSUPP ∧ cfg.have_vsock = true ∧
              cfg.domainToNative domain = cfg.AF_VSOCK) := by
          intro h
          exact hnot ⟨hret, by simpa [readSocketErrno] using h.1, h.2.1, h.2.2⟩
        have hrun : newEvents w (socketPair cfg domain type fd1 fd2 w) =
            .socketpair (cfg.domainToNative domain) (cfg.sockTypeTable type) protocol ret sv
              :: (rest ++ [.throwErrnum (cfg.socket_errno (nativeAttempt cfg (cfg.domainToNative domain) (cfg.sockTypeTable type) w).2.err).1]) := by
          apply newEvents_of_trace
          simp [socketPair, hd, ht, hwin, hret, hfb, hn]
        have hem := native_no_emulation cfg (cfg.domainToNative domain)
          (cfg.sockTypeTable type) w
        rw [hrun]
        rw [hnative] at hem ⊢
        refine ⟨?_, ?_⟩
        · simp only [emulationCalls] at hem ⊢
          simpa [Event.isEmulationCall, List.filter_append, List.filter_cons] using hem
        · simp [hret]
      · have hrun : newEvents w (socketPair cfg domain type fd1 fd2 w) =
            .socketpair (cfg.domainToNative domain) (cfg.sockTypeTable type) protocol ret sv
              :: (rest ++ [.initFD fd1 (nativeAttempt cfg (cfg.domainToNative domain) (cfg.sockTypeTable type) w).1.2.1, .initFD fd2 (nativeAttempt cfg (cfg.domainToNative domain) (cfg.sockTypeTable type) w).1.2.2]) := by
          apply newEvents_of_trace
          simp [socketPair, hd, ht, hwin, hret, hn]
        have hem := native_no_emulation cfg (cfg.domainToNative domain)
          (cfg.sockTypeTable type) w
        rw [hrun]
        rw [hnative] at hem ⊢
        refine ⟨?_, ?_⟩
        · simp only [emulationCalls] at hem ⊢
          simpa [Event.isEmulationCall, List.filter_append, List.filter_cons] using hem
        · simp [hret]

/-- Witness for claim C6 (amended).  On the Windows build a validated request
runs the emulator on the loopback address.  On the Linux build a request for
domain 1 whose native call fails with EACCES (13) makes no call of the
emulation protocol: the failed call is followed by the raise of 13. -/
theorem socketPair_platform_branch_witness :
    (socketPair win32Cfg 1 1 .slot1 .slot2 (World.ofScript [] ⟨0, 0⟩) =
        simulateSocketPair win32Cfg 2 1 .slot1 .slot2 16 (.sockaddr_in 2 16777343 0)
          (World.ofScript [] ⟨0, 0⟩) ∧
      memoryBytes win32Cfg (htonl win32Cfg 0x7F000001) = [127, 0, 0, 1] ∧
      nativeCalls (newEvents (World.ofScript [] ⟨0, 0⟩)
        (socketPair win32Cfg 1 1 .slot1 .slot2 (World.ofScript [] ⟨0, 0⟩))) = 0) ∧
    (emulationCalls (newEvents (World.ofScript [.fail (some ⟨13, 0⟩)] ⟨0, 0⟩)
        (socketPair linuxCfg 1 1 .slot1 .slot2
          (World.ofScript [.fail (some ⟨13, 0⟩)] ⟨0, 0⟩))) = 0 ∧
      newEvents (World.ofScript [.fail (some ⟨13, 0⟩)] ⟨0, 0⟩)
        (socketPair linuxCfg 1 1 .slot1 .slot2
          (World.ofScript [.fail (some ⟨13, 0⟩)] ⟨0, 0⟩)) =
        [.socketpair 1 1 524288 (-1) none, .throwErrnum 13]) :=
  ⟨(socketPair_platform_branch win32Cfg 1 1 .slot1 .slot2 (World.ofScript [] ⟨0, 0⟩)
      (by decide) (by decide)).1 rfl,
   ((socketPair_platform_branch linuxCfg 1 1 .slot1 .slot2
      (World.ofScript [.fail (some ⟨13, 0⟩)] ⟨0, 0⟩) (by decide) (by decide)).2 rfl).2.2
      (by decide)⟩

/-! ## The fallback for the virtual-socket family -/

/-- Claim C7: on a build with virtual sockets, when the native attempt ends in
failure with `socket_errno` equal to EOPNOTSUPP and the native domain is
AF_VSOCK, the rest of the call is exactly a run of `simulateSocketPair` with the
same domain and type and the address with family AF_VSOCK, port VMADDR_PORT_ANY,
CID VMADDR_CID_LOCAL (VMADDR_CID_RESERVED where VMADDR_CID_LOCAL is not defined)
and length `sizeof(struct sockaddr_vm)`.  The native attempt itself raised
nothing and registered nothing, so the errors raised and the endpoints
registered by the call are those of the emulator. -/
theorem socketPair_vsock_fallback (cfg : Config) (domain type : Int) (fd1 fd2 : Slot)
    (w : World)
    (hwin : cfg.win32 = false) (hv : cfg.have_vsock = true)
    (hd : cfg.domainToNative domain = cfg.AF_VSOCK) (hd1 : cfg.AF_VSOCK ≠ -1)
    (ht : cfg.sockTypeTable type ≠ -1)
    (hret : (nativeAttempt cfg cfg.AF_VSOCK (cfg.sockTypeTable type) w).1.1 = -1)
    (hE : (readSocketErrno cfg
      (nativeAttempt cfg cfg.AF_VSOCK (cfg.sockTypeTable type) w).2).1 = cfg.EOPNOTSUPP) :
    socketPair cfg domain type fd1 fd2 w =
      simulateSocketPair cfg cfg.AF_VSOCK (cfg.sockTypeTable type) fd1 fd2
        cfg.sizeof_sockaddr_vm
        (.sockaddr_vm (if cfg.have_sun_len then some cfg.sizeof_sockaddr_vm else none)
          cfg.AF_VSOCK cfg.VMADDR_PORT_ANY
          (if cfg.have_VMADDR_CID_LOCAL then cfg.VMADDR_CID_LOCAL else cfg.VMADDR_CID_RESERVED))
        (readSocketErrno cfg (nativeAttempt cfg cfg.AF_VSOCK (cfg.sockTypeTable type) w).2).2 ∧
    raised (newEvents w (socketPair cfg domain type fd1 fd2 w)) =
      raised (newEvents (readSocketErrno cfg (nativeAttempt cfg cfg.AF_VSOCK (cfg.sockTypeTable type) w).2).2
        (simulateSocketPair cfg cfg.AF_VSOCK (cfg.sockTypeTable type) fd1 fd2
          cfg.sizeof_sockaddr_vm (vsockAddr cfg)
          (readSocketErrno cfg (nativeAttempt cfg cfg.AF_VSOCK (cfg.sockTypeTable type) w).2).2)) ∧
    registered (newEvents w (socketPair cfg domain type fd1 fd2 w)) =
      registered (newEvents (readSocketErrno cfg (nativeAttempt cfg cfg.AF_VSOCK (cfg.sockTypeTable type) w).2).2
        (simulateSocketPair cfg cfg.AF_VSOCK (cfg.sockTypeTable type) fd1 fd2
          cfg.sizeof_sockaddr_vm (vsockAddr cfg)
          (readSocketErrno cfg (nativeAttempt cfg cfg.AF_VSOCK (cfg.sockTypeTable type) w).2).2)) := by
  have hrun : socketPair cfg domain type fd1 fd2 w =
      simulateSocketPair cfg cfg.AF_VSOCK (cfg.sockTypeTable type) fd1 fd2
        cfg.sizeof_sockaddr_vm (vsockAddr cfg)
        (readSocketErrno cfg (nativeAttempt cfg cfg.AF_VSOCK (cfg.sockTypeTable type) w).2).2 := by
    simp only [readSocketErrno] at hE
    simp [socketPair, hd, hd1, ht, hwin, hv, hret, hE]
  obtain ⟨nevs, hntr, hnr, hnreg, -⟩ :=
    native_outcome cfg cfg.AF_VSOCK (cfg.sockTypeTable type) w
  obtain ⟨evs, htr, -⟩ := simulateSocketPair_outcome cfg cfg.AF_VSOCK (cfg.sockTypeTable type) fd1 fd2
    cfg.sizeof_sockaddr_vm (vsockAddr cfg)
    (readSocketErrno cfg (nativeAttempt cfg cfg.AF_VSOCK (cfg.sockTypeTable type) w).2).2
  have h : (simulateSocketPair cfg cfg.AF_VSOCK (cfg.sockTypeTable type) fd1 fd2
          cfg.sizeof_sockaddr_vm (vsockAddr cfg)
          (readSocketErrno cfg (nativeAttempt cfg cfg.AF_VSOCK (cfg.sockTypeTable type) w).2).2).trace = w.trace ++ (nevs ++ evs) := by
    rw [htr]
    simp [hntr]
  refine ⟨hrun, ?_, ?_⟩
  · rw [hrun, newEvents_of_trace htr, newEvents_of_trace h, raised_append, hnr]
    rfl
  · rw [hrun, newEvents_of_trace htr, newEvents_of_trace h, registered_append, hnreg]
    rfl

/-- Witness for claim C7, on the Linux build: the native primitive fails with
EPROTONOSUPPORT (93), its retry with EOPNOTSUPP (95), the domain is AF_VSOCK
(40); the call is the emulator's run, here one in which `bind` fails. -/
theorem socketPair_vsock_fallback_witness :
    socketPair linuxCfg 40 1 .slot1 .slot2
        (World.ofScript [.fail (some ⟨93, 0⟩), .fail (some ⟨95, 0⟩), .ok 3 0 none none,
          .ok 0 0 none none, .fail (some ⟨99, 0⟩)] ⟨0, 0⟩) =
      simulateSocketPair linuxCfg 40 1 .slot1 .slot2 16 (.sockaddr_vm none 40 4294967295 1)
        (readSocketErrno linuxCfg (nativeAttempt linuxCfg 40 1
          (World.ofScript [.fail (some ⟨93, 0⟩), .fail (some ⟨95, 0⟩), .ok 3 0 none none,
            .ok 0 0 none none, .fail (some ⟨99, 0⟩)] ⟨0, 0⟩)).2).2 :=
  (socketPair_vsock_fallback linuxCfg 40 1 .slot1 .slot2
    (World.ofScript [.fail (some ⟨93, 0⟩), .fail (some ⟨95, 0⟩), .ok 3 0 none none,
      .ok 0 0 none none, .fail (some ⟨99, 0⟩)] ⟨0, 0⟩)
    rfl rfl rfl (by decide) (by decide) (by decide) (by decide)).1

end JUnixSocket
